import Mathlib

/-!
Shallow embedding of the attendance LINE-bot backend (src/server.js).

Spreadsheet rows become Lean structures, the Google-Sheets document
becomes a `Store` record of row lists, and each JS function that the
claims touch becomes a Lean function on `Store`.  Wall-clock inputs
(`new Date()`, `Date.now()`) are passed in explicitly: `nowMsOfDay` is
milliseconds since local midnight, `today` is the `getTodayString()`
value, `nowStr` the `formatDateTime` value.  The LINE push channel is
modelled as an `outbox` list of (LINE_ID, text) pairs; for template
messages the recorded text is the template's altText.  JavaScript
number quirks (`parseInt(x) || d`, `NaN` comparisons, `Number('')`)
are modelled with `Option Int` where `none` stands for `NaN`.
-/

namespace Attendance

/-- Row of the 學生名單 sheet: 學號, 姓名, 班級, LINE_ID, LINE名稱, 註冊時間, 狀態.
Blank cells are the empty string. -/
structure StudentRow where
  studentId : String
  name : String
  classes : String
  lineId : String
  lineName : String
  regTime : String
  status : String
  deriving Repr, DecidableEq

/-- Row of the 課程列表 sheet.  The numeric cells 教室緯度/教室經度 are
modelled as the `parseFloat` result (`none` for a blank or non-numeric
cell, i.e. `NaN`); 簽到範圍 and 遲到標準 stay raw strings because the
code distinguishes the empty cell from an unparsable one. -/
structure CourseRow where
  courseId : String
  subject : String
  classCode : String
  weekday : String
  courseTime : String
  classroom : String
  classroomLat : Option ℚ
  classroomLon : Option ℚ
  rawRadius : String
  lateStd : String
  status : String
  deriving Repr, DecidableEq

/-- Row of the 簽到活動 sheet: 活動ID, 課程ID, 日期, 開始時間, 結束時間, QR碼內容, 狀態. -/
structure SessionRow where
  sessionId : String
  courseId : String
  date : String
  startTime : String
  endTime : String
  qr : String
  status : String
  deriving Repr, DecidableEq

/-- Row of the 簽到紀錄 sheet: 活動ID, 學號, 簽到時間, 狀態, 遲到分鐘, GPS緯度, GPS經度, 備註. -/
structure AttRow where
  sessionId : String
  studentId : String
  time : String
  status : String
  lateMin : Int
  gpsLat : String
  gpsLon : String
  note : String
  deriving Repr, DecidableEq

/-- Row of the 出席統計 sheet; the numeric cells are modelled as integers
(`parseInt(...) || 0` in the code turns blank or garbage into 0). -/
structure StatRow where
  studentId : String
  name : String
  classCode : String
  attended : Int
  late : Int
  absent : Int
  rate : String
  updated : String
  deriving Repr, DecidableEq

/-- Row of the 提醒紀錄 sheet: 課程ID, 日期, 類型, 發送時間. -/
structure ReminderRow where
  courseId : String
  date : String
  typ : String
  sentAt : String
  deriving Repr, DecidableEq

/-- The spreadsheet document plus the outbound LINE push channel.
`settings` is the 系統設定 sheet as (設定項目, 設定值) pairs. -/
structure Store where
  students : List StudentRow
  courses : List CourseRow
  sessions : List SessionRow
  records : List AttRow
  stats : List StatRow
  reminders : List ReminderRow
  settings : List (String × String)
  outbox : List (String × String)
  deriving Repr, DecidableEq

/-- In-memory conversation state for one user (entries of `userStates`),
as set by `handleGPSCheckin` when it enters the `waitingLocation` step.
`retryCount` starts at 0, matching `state.retryCount || 0`. -/
structure UserState where
  step : String
  courseId : String
  sessionId : String
  courseName : String
  classroomLat : ℚ
  classroomLon : ℚ
  checkRadius : Int
  lateMinutes : Int
  startTime : String
  retryCount : Nat
  deriving Repr, DecidableEq

/-- A reply sent back over the LINE reply token: a plain text message or
a buttons template (identified by its altText). -/
inductive Reply where
  | text : String → Reply
  | template : String → Reply
  deriving Repr, DecidableEq

/-- Result object of `recordAttendance`. -/
structure RecordResult where
  success : Bool
  message : String
  status : String
  deriving Repr, DecidableEq

/-- Result object of `registerStudent`. -/
structure RegResult where
  success : Bool
  message : String
  deriving Repr, DecidableEq

/-! ## JavaScript string helpers

`String.splitOn`, `String.replace` and `String.trim` in core Lean are
defined by well-founded recursion on byte positions, which the kernel
cannot reduce, so witnesses could not be checked by `decide`/`rfl`.
The functions below re-implement the JavaScript string operations the
server uses with structural recursion over `List Char` (using the list
length as fuel where a pattern of length ≥ 1 is consumed). -/

/-- One splitting step bounded by fuel: split `hay` at every occurrence
of the separator `sep` (assumed nonempty), JS `split` semantics. -/
def splitOnListAux (sep : List Char) : Nat → List Char → List Char →
    List (List Char)
  | _, acc, [] => [acc.reverse]
  | 0, acc, rest => [acc.reverse ++ rest]
  | fuel + 1, acc, h :: t =>
      if sep.isPrefixOf (h :: t) then
        acc.reverse :: splitOnListAux sep fuel [] ((h :: t).drop sep.length)
      else
        splitOnListAux sep fuel (h :: acc) t

/-- `s.split(sep)` for a nonempty string separator (JS semantics; for
the separators used by the server this agrees with `String.splitOn`). -/
def splitOnJS (s sep : String) : List String :=
  if sep.toList.isEmpty then [s]
  else (splitOnListAux sep.toList s.toList.length [] s.toList).map String.mk

/-- `s.replace(pat, repl)` on lists: JS replaces only the first
occurrence. -/
def replaceFirstList (pat repl : List Char) : List Char → List Char
  | [] => []
  | h :: t =>
      if !pat.isEmpty && pat.isPrefixOf (h :: t) then
        repl ++ (h :: t).drop pat.length
      else h :: replaceFirstList pat repl t

/-- `s.replace(pat, repl)` with a string pattern (first occurrence only). -/
def replaceFirst (s pat repl : String) : String :=
  String.mk (replaceFirstList pat.toList repl.toList s.toList)

/-- `s.replace(/pat/g, repl)`: every occurrence, left to right. -/
def replaceAllList (pat repl : List Char) : Nat → List Char → List Char
  | _, [] => []
  | 0, rest => rest
  | fuel + 1, h :: t =>
      if !pat.isEmpty && pat.isPrefixOf (h :: t) then
        repl ++ replaceAllList pat repl fuel ((h :: t).drop pat.length)
      else h :: replaceAllList pat repl fuel t

/-- `s.replace(/pat/g, repl)` with a string pattern. -/
def replaceAll (s pat repl : String) : String :=
  String.mk (replaceAllList pat.toList repl.toList s.toList.length s.toList)

/-- JS whitespace for `trim`. -/
def isWS (c : Char) : Bool :=
  c = ' ' || c = '\t' || c = '\n' || c = '\r'

/-- `s.trim()`. -/
def trimJS (s : String) : String :=
  String.mk (((s.toList.dropWhile isWS).reverse.dropWhile isWS).reverse)

/-! ## JavaScript number helpers -/

/-- `parseInt` on a string: optional sign followed by at least one
leading digit; `none` is `NaN`. -/
def parseIntJS (s : String) : Option Int :=
  let core (t : List Char) : Option Nat :=
    let ds := t.takeWhile Char.isDigit
    if ds.isEmpty then none
    else some (ds.foldl (fun a c => a * 10 + (c.toNat - 48)) 0)
  match s.toList with
  | '-' :: t => (core t).map (fun n => -(n : Int))
  | '+' :: t => (core t).map (fun n => (n : Int))
  | t => (core t).map (fun n => (n : Int))

/-- `parseInt(s) || d`: `NaN` and `0` are both falsy. -/
def intOr (v : Option Int) (d : Int) : Int :=
  match v with
  | some n => if n = 0 then d else n
  | none => d

/-- `Number(s)` on the strings that occur in time cells: the empty
string is 0, otherwise as `parseInt`; `none` is `NaN`. -/
def jsNumber? (s : String) : Option Int :=
  if s = "" then some 0 else parseIntJS s

/-- `Number(parts[i])` where a missing index is `undefined`, hence `NaN`. -/
def jsNumAt (parts : List String) (i : Nat) : Option Int :=
  match parts.get? i with
  | none => none
  | some s => jsNumber? s

/-- `x > y` where `x` may be `NaN` (any comparison with `NaN` is false). -/
def jsGt (x : Option Int) (y : Int) : Bool :=
  match x with
  | some v => decide (v > y)
  | none => false

/-- `parseFloat(cell) || fallback`: `NaN` and `0` both fall back. -/
def floatOr (v : Option ℚ) (fallback : ℚ) : ℚ :=
  match v with
  | some x => if x = 0 then fallback else x
  | none => fallback

/-- Does `needle` occur as a contiguous run inside `hay`? -/
def listHasRun (needle : List Char) : List Char → Bool
  | [] => needle.isEmpty
  | h :: t => needle.isPrefixOf (h :: t) || listHasRun needle t

/-- `hay.includes(needle)` on strings. -/
def strIncludes (hay needle : String) : Bool :=
  listHasRun needle.toList hay.toList

/-- Update the first row matched by `p` (a `row.set(...); row.save()` on
the row returned by `rows.find(...)`). -/
def updateFirst (p : α → Bool) (f : α → α) : List α → List α
  | [] => []
  | x :: xs => if p x then f x :: xs else x :: updateFirst p f xs

/-- `(s.get('班級') || '').split(/[,、]/).map(c => c.trim())`. -/
def splitClasses (s : String) : List String :=
  ((splitOnJS s ",").flatMap (fun t => splitOnJS t "、")).map trimJS

/-- `Math.round(num/den * 100)` for integer `num/den`, i.e.
`⌊(200·num + den) / (2·den)⌋`. -/
def jsRoundPct (num den : Int) : Int :=
  Int.fdiv (num * 200 + den) (den * 2)

/-! ## Store lookups (server.js §Google Sheets 操作) -/

/-- `getStudent(lineUserId)`: first 學生名單 row whose LINE_ID matches. -/
def getStudent (st : Store) (lineUserId : String) : Option StudentRow :=
  st.students.find? (fun row => row.lineId == lineUserId)

/-- `getCourse(courseId)`: first 課程列表 row whose 課程ID matches. -/
def getCourse (st : Store) (courseId : String) : Option CourseRow :=
  st.courses.find? (fun row => row.courseId == courseId)

/-- The date comparison inside `getTodaySession`: exact match, match with
`-` replaced by `/`, or the row date containing `MM/DD`. -/
def dateMatch (rowDate today : String) : Bool :=
  rowDate == today ||
  rowDate == replaceAll today "-" "/" ||
  strIncludes rowDate
    ((splitOnJS today "-").getD 1 "" ++ "/" ++ (splitOnJS today "-").getD 2 "")

/-- `getTodaySession(courseId)`: first 簽到活動 row for the course dated
today whose 狀態 is not 已結束. -/
def getTodaySession (st : Store) (courseId today : String) : Option SessionRow :=
  st.sessions.find? (fun row =>
    row.courseId == courseId && dateMatch row.date today && row.status != "已結束")

/-- `checkExistingAttendance(sessionId, studentId)`: first 簽到紀錄 row
for the (活動ID, 學號) pair. -/
def checkExistingAttendance (records : List AttRow) (sessionId studentId : String) :
    Option AttRow :=
  records.find? (fun row => row.sessionId == sessionId && row.studentId == studentId)

/-! ## registerStudent (server.js lines 119–169) -/

/-- `registerStudent(lineUserId, lineName, studentId, studentName, className)`:
duplicate registration from the same LINE account is refused; the same
學號 from a different LINE account rebinds the existing row; otherwise a
fresh row is appended. -/
def registerStudent (st : Store)
    (lineUserId lineName studentId studentName className nowStr : String) :
    RegResult × Store :=
  match st.students.find? (fun row => row.studentId == studentId) with
  | some existing =>
      if existing.lineId == lineUserId then
        ({ success := false, message := "您已經註冊過了！" }, st)
      else
        let students' := updateFirst (fun row => row.studentId == studentId)
          (fun row => { row with
            lineId := lineUserId, lineName := lineName,
            status := "正常", regTime := nowStr }) st.students
        ({ success := true, message := "偵測到您使用新裝置，已為您更新綁定資料。" },
         { st with students := students' })
  | none =>
      ({ success := true, message := "註冊成功！" },
       { st with students := st.students ++
          [{ studentId := studentId, name := studentName, classes := className,
             lineId := lineUserId, lineName := lineName, regTime := nowStr,
             status := "正常" }] })

/-! ## updateStatistics (server.js lines 341–386) -/

/-- `updateStatistics(studentId, status)`: find or create the 出席統計
row, bump the counters for the status, recompute the percentage. -/
def updateStatistics (st : Store) (studentId status nowStr : String) : Store :=
  let student := st.students.find? (fun row => row.studentId == studentId)
  let fresh : StatRow :=
    { studentId := studentId
      name := match student with | some s => s.name | none => ""
      classCode := match student with | some s => s.classes | none => ""
      attended := 0, late := 0, absent := 0, rate := "0%", updated := nowStr }
  let stats := if (st.stats.find? (fun row => row.studentId == studentId)).isSome
    then st.stats else st.stats ++ [fresh]
  let stats' := updateFirst (fun row => row.studentId == studentId)
    (fun row =>
      let attended := if status == "已報到" then row.attended + 1
        else if status == "遲到" then row.attended + 1 else row.attended
      let late := if status == "遲到" then row.late + 1 else row.late
      let absent := if status == "缺席" then row.absent + 1 else row.absent
      let total := attended + absent
      let rate := if total > 0 then jsRoundPct attended total else 0
      { row with attended := attended, late := late, absent := absent,
                 rate := toString rate ++ "%", updated := nowStr }) stats
  { st with stats := stats' }

/-! ## recordAttendance (server.js lines 260–336) -/

/-- Injected store/channel failures, to model thrown exceptions:
`addRowFails sid pid` says the 簽到紀錄 append for that pair rejects,
`pushFails lineId` says `lineClient.pushMessage` to that LINE_ID rejects. -/
structure FaultModel where
  addRowFails : String → String → Bool
  pushFails : String → Bool

/-- The fault-free instantiation. -/
def noFaults : FaultModel := ⟨fun _ _ => false, fun _ => false⟩

/-- The notification block at the end of `recordAttendance` (wrapped in
`try/catch` in the source, so a failed push leaves the store as is). -/
def sendCheckinNotification (fm : FaultModel) (st : Store)
    (sessionId studentId status : String) (lateMinutes : Int) : Store :=
  match st.students.find? (fun s => s.studentId == studentId) with
  | none => st
  | some student =>
    if student.lineId == "" then st else
    match st.sessions.find? (fun s => s.sessionId == sessionId) with
    | none => st
    | some session =>
      match st.courses.find? (fun c => c.courseId == session.courseId) with
      | none => st
      | some course =>
        let notifyText :=
          if status == "已報到" then
            "✅ 簽到成功\n\n📚 課程：" ++ course.subject ++ "\n📅 日期：" ++
              session.date ++ "\n✨ 狀態：準時報到\n\n繼續保持！💪"
          else if status == "遲到" then
            "⚠️ 遲到通知\n\n📚 課程：" ++ course.subject ++ "\n📅 日期：" ++
              session.date ++ "\n⏰ 遲到：" ++ toString lateMinutes ++
              " 分鐘\n\n請下次準時出席！"
          else if status == "缺席" then
            "❌ 缺席通知\n\n📚 課程：" ++ course.subject ++ "\n📅 日期：" ++
              session.date ++ "\n\n如有疑問請聯繫教師。"
          else ""
        if notifyText == "" then st
        else if fm.pushFails student.lineId then st
        else { st with outbox := st.outbox ++ [(student.lineId, notifyText)] }

/-- `recordAttendance(sessionId, studentId, status, lateMinutes, gpsLat,
gpsLon, sendNotification)`.  An existing row for the pair short-circuits
with the prior status and no mutation; otherwise the row is appended,
statistics updated and (optionally) a notification pushed.  A rejected
append (`fm.addRowFails`) is an uncaught throw: `Except.error` carries
the store at the moment of the throw. -/
def recordAttendance (fm : FaultModel) (st : Store)
    (sessionId studentId status : String) (lateMinutes : Int)
    (gpsLat gpsLon : String) (sendNotification : Bool) (nowStr : String) :
    Except Store (RecordResult × Store) :=
  match checkExistingAttendance st.records sessionId studentId with
  | some existing =>
      .ok ({ success := false, message := "您已經簽到過了！",
             status := existing.status }, st)
  | none =>
      if fm.addRowFails sessionId studentId then .error st
      else
        let st1 := { st with records := st.records ++
          [{ sessionId := sessionId, studentId := studentId, time := nowStr,
             status := status, lateMin := lateMinutes, gpsLat := gpsLat,
             gpsLon := gpsLon, note := "" }] }
        let st2 := updateStatistics st1 studentId status nowStr
        let st3 := if sendNotification
          then sendCheckinNotification fm st2 sessionId studentId status lateMinutes
          else st2
        .ok ({ success := true, message := "簽到成功！", status := status }, st3)

/-! ## Late/on-time classification

The block duplicated in `handleDirectCheckin`, `handleGPSCheckin`,
`handleCheckinRequest` and `handleLocation`:

    const [startHour, startMin] = (startTime || '08:00').split(':').map(Number);
    const startDate = new Date(); startDate.setHours(startHour, startMin, 0, 0);
    const diffMinutes = Math.floor((now - startDate) / 60000);
    const status = diffMinutes > lateMinutes ? '遲到' : '已報到';
-/

/-- `diffMinutes` as a JS number: `none` when the time string does not
parse (`NaN`); `nowMsOfDay` is `now` in milliseconds since midnight. -/
def diffMinutesOf (nowMsOfDay : Int) (startTime : String) : Option Int :=
  let s := if startTime == "" then "08:00" else startTime
  let parts := splitOnJS s ":"
  match jsNumAt parts 0, jsNumAt parts 1 with
  | some h, some m => some (Int.fdiv (nowMsOfDay - (h * 60 + m) * 60000) 60000)
  | _, _ => none

/-- `(status, lateMinutes)` from the classification block; with a `NaN`
difference both comparisons are false, giving 已報到 and 0. -/
def classifyCheckin (nowMsOfDay : Int) (startTime : String) (lateThreshold : Int) :
    String × Int :=
  let diff := diffMinutesOf nowMsOfDay startTime
  (if jsGt diff lateThreshold then "遲到" else "已報到",
   if jsGt diff lateThreshold then diff.getD 0 else 0)

/-! ## Session resolution shared by the three check-in handlers

    let session = await getTodaySession(courseId);
    if (!session) { session = rows.find(r => r.get('活動ID') === sessionId
                                          && r.get('狀態') !== '已結束'); }
-/

/-- Resolve the session a check-in code lands on: the active session for
(course, today) if one exists, else the code's own 活動ID as fallback. -/
def resolveSession (st : Store) (courseId sessionId today : String) :
    Option SessionRow :=
  match getTodaySession st courseId today with
  | some session => some session
  | none => st.sessions.find? (fun r =>
      r.sessionId == sessionId && r.status != "已結束")

/-- The success reply of `handleDirectCheckin`. -/
def directSuccessMsg (subject studentName status : String) (diffMinutes : Int) :
    String :=
  let emoji := if status == "已報到" then "✅" else "⚠️"
  let base := emoji ++ " 簽到成功！\n\n📚 課程：" ++ subject ++ "\n👤 學生：" ++
    studentName ++ "\n📍 方式：掃描 QR Code\n✨ 狀態：" ++ status
  if status == "遲到" then base ++ "\n⏰ 遲到 " ++ toString diffMinutes ++ " 分鐘"
  else base

/-- The already-checked-in reply shared by the check-in handlers. -/
def alreadyCheckedMsg (subject checkinTime : String) : String :=
  "✅ 您已經簽到過了！\n\n📚 課程：" ++ subject ++ "\n⏰ 簽到時間：" ++ checkinTime

/-! ## handleDirectCheckin (server.js lines 644–715) -/

/-- `handleDirectCheckin(event, userId, text)`: venue QR-code check-in,
no GPS involved.  Returns the reply and the updated store; `Except.error`
is an uncaught throw out of `recordAttendance`. -/
def handleDirectCheckin (fm : FaultModel) (st : Store) (userId text : String)
    (today : String) (nowMsOfDay : Int) (nowStr : String) :
    Except Store (Reply × Store) :=
  match getStudent st userId with
  | none => .ok (.text "❌ 您尚未註冊！\n\n請先輸入「註冊」綁定學號。", st)
  | some student =>
    let parts := splitOnJS (replaceFirst text "直接簽到:" "") "|"
    if parts.length < 2 then .ok (.text "❌ 無效的簽到碼！", st)
    else
      let courseId := parts.getD 0 ""
      let sessionId := parts.getD 1 ""
      match getCourse st courseId with
      | none => .ok (.text "❌ 找不到此課程！", st)
      | some course =>
        match resolveSession st courseId sessionId today with
        | none => .ok (.text "❌ 此簽到活動已結束或不存在！", st)
        | some session =>
          let actualSessionId := session.sessionId
          match checkExistingAttendance st.records actualSessionId student.studentId with
          | some existingRecord =>
              .ok (.text (alreadyCheckedMsg course.subject existingRecord.time), st)
          | none =>
            let lateMinutes := intOr (parseIntJS course.lateStd) 10
            let diff := diffMinutesOf nowMsOfDay session.startTime
            let status := if jsGt diff lateMinutes then "遲到" else "已報到"
            match recordAttendance fm st actualSessionId student.studentId status
                (if jsGt diff lateMinutes then diff.getD 0 else 0) "" "" true nowStr with
            | .error st' => .error st'
            | .ok (result, st') =>
              if result.success then
                .ok (.text (directSuccessMsg course.subject student.name status
                  (diff.getD 0)), st')
              else .ok (.text ("❌ 簽到失敗：" ++ result.message), st')

/-! ## handleGPSCheckin (server.js lines 721–863) -/

/-- The GPS-checkin success reply (the radius-unrestricted branch). -/
def gpsSuccessMsg (subject studentName status : String) (diffMinutes : Int) :
    String :=
  let emoji := if status == "已報到" then "✅" else "⚠️"
  let base := emoji ++ " 簽到成功！\n\n📚 課程：" ++ subject ++ "\n👤 學生：" ++
    studentName ++ "\n✨ 狀態：" ++ status
  if status == "遲到" then base ++ "\n⏰ 遲到 " ++ toString diffMinutes ++ " 分鐘"
  else base

/-- The venue-only rejection issued when 簽到範圍 is −1. -/
def venueOnlyMsg : String :=
  "📱 此課程設定為「現場簽到」\n\n請到教室掃描老師手機上的 QR Code 簽到。"

/-- `handleGPSCheckin(event, userId, text)`: learner-initiated check-in.
Also returns the updated `userStates` entry for this user (`us` is the
entry on entry; the handler only ever overwrites it when entering the
`waitingLocation` step). -/
def handleGPSCheckin (fm : FaultModel) (st : Store) (us : Option UserState)
    (userId text today : String) (nowMsOfDay : Int) (nowStr : String) :
    Except Store (Reply × Store × Option UserState) :=
  match getStudent st userId with
  | none => .ok (.text ("❌ 找不到您的帳號！\n\n📱 收到的 ID：\n" ++ userId ++
      "\n\n請輸入「我的ID」比對，或輸入「註冊」重新綁定。"), st, us)
  | some student =>
    let parts := splitOnJS (replaceFirst text "GPS簽到:" "") "|"
    if parts.length < 2 then .ok (.text "❌ 無效的簽到碼！", st, us)
    else
      let courseId := parts.getD 0 ""
      let sessionId := parts.getD 1 ""
      match getCourse st courseId with
      | none => .ok (.text "❌ 找不到此課程！", st, us)
      | some course =>
        match resolveSession st courseId sessionId today with
        | none => .ok (.text "❌ 此簽到活動已結束或不存在！", st, us)
        | some session =>
          let actualSessionId := session.sessionId
          match checkExistingAttendance st.records actualSessionId student.studentId with
          | some existingRecord =>
              .ok (.text (alreadyCheckedMsg course.subject existingRecord.time), st, us)
          | none =>
            let classroomLat := floatOr course.classroomLat 0
            let classroomLon := floatOr course.classroomLon 0
            let checkRadius : Option Int :=
              if course.rawRadius == "" then some 100 else parseIntJS course.rawRadius
            if checkRadius == some (-1) then
              .ok (.text venueOnlyMsg, st, us)
            else if classroomLat != 0 && classroomLon != 0 && jsGt checkRadius 0 then
              .ok (.template "📍 請傳送您的位置以完成簽到", st,
                some { step := "waitingLocation", courseId := courseId,
                       sessionId := actualSessionId, courseName := course.subject,
                       classroomLat := classroomLat, classroomLon := classroomLon,
                       checkRadius := checkRadius.getD 0,
                       lateMinutes := intOr (parseIntJS course.lateStd) 10,
                       startTime := session.startTime, retryCount := 0 })
            else
              let lateMinutes := intOr (parseIntJS course.lateStd) 10
              let diff := diffMinutesOf nowMsOfDay session.startTime
              let status := if jsGt diff lateMinutes then "遲到" else "已報到"
              match recordAttendance fm st actualSessionId student.studentId status
                  (if jsGt diff lateMinutes then diff.getD 0 else 0) "" "" true nowStr with
              | .error st' => .error st'
              | .ok (result, st') =>
                if result.success then
                  .ok (.text (gpsSuccessMsg course.subject student.name status
                    (diff.getD 0)), st', us)
                else .ok (.text ("❌ 簽到失敗：" ++ result.message), st', us)

/-! ## handleLocation (server.js lines 941–1051) -/

/-- `parseFloat(course.get('教室緯度')) || state.classroomLat`: the fresh
re-read of a classroom coordinate, falling back to the conversation
state when the cell is blank, garbage or zero. -/
def effCoord (cell : Option ℚ) (fromState : ℚ) : ℚ :=
  floatOr cell fromState

/-- The fresh re-read of 簽到範圍: `rawRadius !== '' ? parseInt(rawRadius)
: state.checkRadius` (`none` = `NaN`). -/
def effRadius (course : CourseRow) (state : UserState) : Option Int :=
  if course.rawRadius == "" then some state.checkRadius
  else parseIntJS course.rawRadius

/-- The terminal geofence-failure message after three rejections. -/
def geofenceFailMsg (retryCount : Nat) (distance : Int) (allowedRadius : Int) :
    String :=
  "🚫 簽到失敗！\n\n已重試 " ++ toString retryCount ++
  " 次仍不在範圍內。\n📍 您的位置距離：" ++ toString distance ++
  " 公尺\n📏 允許範圍：" ++ toString allowedRadius ++
  " 公尺\n\n💡 建議：\n1. 到戶外或窗邊重新定位\n2. 聯繫老師使用現場 QR Code 簽到"

/-- The on-time / late success replies of `handleLocation`. -/
def locationSuccessMsg (courseName nowStr : String) (distance : Int)
    (status : String) (lateMinutes : Int) : String :=
  if status == "已報到" then
    "✅ 簽到成功！\n\n📚 課程：" ++ courseName ++ "\n⏰ 時間：" ++ nowStr ++
    "\n📍 距離教室：" ++ toString distance ++ " 公尺\n✨ 狀態：準時報到\n\n繼續保持！💪"
  else
    "⚠️ 簽到成功（遲到）\n\n📚 課程：" ++ courseName ++ "\n⏰ 時間：" ++ nowStr ++
    "\n📍 距離教室：" ++ toString distance ++ " 公尺\n⏰ 遲到 " ++
    toString lateMinutes ++ " 分鐘\n\n下次請準時到達！"

/-- `Math.round` on a nonnegative-or-negative rational (half away from
zero is irrelevant here; JS rounds half up): `⌊x + 1/2⌋`. -/
def jsRound (x : ℚ) : Int := ⌊x + 1/2⌋

/-- `handleLocation(event, userId)` on a location message.  The haversine
`calculateDistance` is transcendental, so it enters as the function
parameter `calcDistance`; everything downstream only compares its value.
`us` is the `userStates` entry for this user; the third component of the
result is the updated entry. -/
def handleLocation (fm : FaultModel) (calcDistance : ℚ → ℚ → ℚ → ℚ → ℚ)
    (st : Store) (us : Option UserState) (userId : String) (lat lon : ℚ)
    (nowMsOfDay : Int) (nowStr : String) :
    Except Store (Reply × Store × Option UserState) :=
  match us with
  | none => .ok (.text "❌ 請先掃描簽到 QR Code！", st, us)
  | some state =>
    if state.step != "waitingLocation" then
      .ok (.text "❌ 請先掃描簽到 QR Code！", st, us)
    else
      match getStudent st userId with
      | none => .ok (.text "❌ 找不到您的學生資料！\n\n請先輸入「註冊」綁定學號。", st, none)
      | some student =>
        match getCourse st state.courseId with
        | none => .ok (.text "❌ 課程不存在！", st, none)
        | some course =>
          let classroomLat := effCoord course.classroomLat state.classroomLat
          let classroomLon := effCoord course.classroomLon state.classroomLon
          let allowedRadius := effRadius course state
          let distance := calcDistance lat lon classroomLat classroomLon
          if (match allowedRadius with
              | some r => decide (distance > (r : ℚ))
              | none => false) then
            let retried := state.retryCount + 1
            if retried ≥ 3 then
              .ok (.text (geofenceFailMsg retried (jsRound distance)
                (allowedRadius.getD 0)), st, none)
            else
              .ok (.template "📍 位置驗證失敗，請重試", st,
                some { state with retryCount := retried })
          else
            let status := if jsGt (diffMinutesOf nowMsOfDay state.startTime)
                state.lateMinutes then "遲到" else "已報到"
            let lateMinutes := if jsGt (diffMinutesOf nowMsOfDay state.startTime)
                state.lateMinutes
              then (diffMinutesOf nowMsOfDay state.startTime).getD 0 else 0
            match recordAttendance fm st state.sessionId student.studentId status
                lateMinutes (toString lat) (toString lon) true nowStr with
            | .error st' => .error st'
            | .ok (result, st') =>
              if !result.success then
                .ok (.text ("ℹ️ " ++ result.message ++ "\n\n狀態：" ++ result.status),
                  st', none)
              else
                .ok (.text (locationSuccessMsg state.courseName nowStr
                  (jsRound distance) status lateMinutes), st', none)

/-! ## checkAbsences (server.js lines 1346–1430) -/

/-- Has the session's 結束時間 passed?  A blank cell skips the session;
an unparsable one makes `setHours(NaN, ...)` produce an invalid date,
so `now > endTime` is false. -/
def absExpired (session : SessionRow) (nowMsOfDay : Int) : Bool :=
  if session.endTime == "" then false
  else
    let parts := splitOnJS session.endTime ":"
    match jsNumAt parts 0, jsNumAt parts 1 with
    | some h, some m => decide (nowMsOfDay > (h * 60 + m) * 60000)
    | _, _ => false

/-- The Absence Reconciler's own notification text (distinct from the one
`recordAttendance` pushes). -/
def absenceNotifyMsg (subject date : String) : String :=
  "❌ 缺席通知\n\n您已被標記為缺席：\n📚 課程：" ++ subject ++ "\n📅 日期：" ++
  date ++ "\n\n如有疑問請聯繫教師。"

/-- One enrolled student inside the per-session loop of `checkAbsences`:
skip if the records snapshot already has the pair, otherwise synthesize
the absence via `recordAttendance` (whose throw is NOT caught here) and
push the reconciler's absence notification (whose throw IS caught). -/
def absStudentStep (fm : FaultModel) (sessionId : String) (course : CourseRow)
    (sessionDate : String) (recordsSnapshot : List AttRow) (nowStr : String)
    (st : Store) (student : StudentRow) : Except Store Store :=
  let hasRecord := recordsSnapshot.any (fun r =>
    r.sessionId == sessionId && r.studentId == student.studentId)
  if hasRecord then .ok st
  else
    match recordAttendance fm st sessionId student.studentId "缺席" 0 "" "" true nowStr with
    | .error st' => .error st'
    | .ok (result, st') =>
      if result.success && student.lineId != "" then
        if fm.pushFails student.lineId then .ok st'
        else .ok { st' with outbox := st'.outbox ++
          [(student.lineId, absenceNotifyMsg course.subject sessionDate)] }
      else .ok st'

/-- Left fold that propagates an uncaught throw. -/
def foldExcept (f : Store → α → Except Store Store) : Store → List α → Except Store Store
  | st, [] => .ok st
  | st, x :: xs =>
    match f st x with
    | .error st' => .error st'
    | .ok st' => foldExcept f st' xs

/-- One session inside `checkAbsences`: only a 進行中 session whose end
time has passed is processed — marked 處理中 first, absences synthesized
for enrolled students without a record, then marked 已結束.  `idx` is
the row's position in the sheet (row object identity). -/
def processSession (fm : FaultModel) (st : Store) (idx : Nat)
    (session : SessionRow) (nowMsOfDay : Int) (nowStr : String) :
    Except Store Store :=
  if session.status != "進行中" then .ok st
  else if !absExpired session nowMsOfDay then .ok st
  else
    let st := { st with sessions :=
      (st.sessions.set idx ({ session with status := "處理中" })) }
    let inner : Except Store Store :=
      match st.courses.find? (fun c => c.courseId == session.courseId) with
      | none => .ok st
      | some course =>
        let classStudents := st.students.filter (fun s =>
          (splitClasses s.classes).contains course.classCode)
        foldExcept
          (absStudentStep fm session.sessionId course session.date st.records nowStr)
          st classStudents
    match inner with
    | .error st' => .error st'
    | .ok st' => .ok { st' with sessions :=
        (st'.sessions.set idx ({ session with status := "已結束" })) }

/-- `checkAbsences()`: sweep over the session rows fetched at entry.
The whole body is inside one `try/catch`, so an uncaught throw aborts
the remaining rows but keeps every mutation made so far. -/
def checkAbsences (fm : FaultModel) (st0 : Store) (nowMsOfDay : Int)
    (nowStr : String) : Store :=
  match foldExcept
      (fun st (p : Nat × SessionRow) => processSession fm st p.1 p.2 nowMsOfDay nowStr)
      st0 st0.sessions.enum with
  | .ok st => st
  | .error st => st

/-! ## autoClassReminder (server.js lines 1538–1683) -/

/-- Read 系統設定: `autoRemind` from 上課提醒, `remindMinutes` from
提醒分鐘 (`parseInt || 30`), later rows overwriting earlier ones;
defaults `(true, 30)`. -/
def reminderSettings (st : Store) : Bool × Int :=
  st.settings.foldl (fun acc s =>
    let acc := if s.1 == "上課提醒" then (s.2 == "true", acc.2) else acc
    if s.1 == "提醒分鐘" then (acc.1, intOr (parseIntJS s.2) 30) else acc)
    (true, 30)

/-- The courses swept today: 星期 parses to today's weekday and 狀態 is
啟用. -/
def todayCoursesOf (st : Store) (dayOfWeek : Int) : List CourseRow :=
  st.courses.filter (fun c =>
    (match parseIntJS c.weekday with
     | some w => decide (w = dayOfWeek)
     | none => false) && c.status == "啟用")

/-- Is a (課程ID, 日期, 上課提醒) entry in the dedup ledger? -/
def reminderSent (reminders : List ReminderRow) (courseId today : String) : Bool :=
  reminders.any (fun r =>
    r.courseId == courseId && r.date == today && r.typ == "上課提醒")

/-- Is the course's reminder window open this minute?  This factors the
guard sequence of the per-course loop: a blank 上課時間 start skips
(`if (!startTime) continue`), an unparsable one makes `startTotalMin`
`NaN` so both window comparisons are false, otherwise the sweep fires
when `currentTotalMin` lies in `[startTotalMin − remindMinutes,
startTotalMin − remindMinutes + 5]`. -/
def windowOpen (course : CourseRow) (remindMinutes currentTotalMin : Int) : Bool :=
  let startTime := (splitOnJS course.courseTime "-").getD 0 ""
  if startTime == "" then false
  else
    let parts := splitOnJS startTime ":"
    match jsNumAt parts 0, jsNumAt parts 1 with
    | some h, some m =>
      let reminderTime := h * 60 + m - remindMinutes
      currentTotalMin ≥ reminderTime && currentTotalMin ≤ reminderTime + 5
    | _, _ => false

/-- The firing body of the per-course loop: create the 簽到活動 row,
push the check-in prompt (altText recorded) to every enrolled
LINE-linked student (a failed push is caught per student), then append
the dedup-ledger entry. -/
def fireReminder (fm : FaultModel) (st : Store) (course : CourseRow)
    (today nowStr sid : String) : Store :=
  let startTime := (splitOnJS course.courseTime "-").getD 0 ""
  let qr := "直接簽到:" ++ course.courseId ++ "|" ++ sid
  let st : Store := { st with sessions := st.sessions ++
    [{ sessionId := sid, courseId := course.courseId, date := today,
       startTime := startTime,
       endTime := (splitOnJS course.courseTime "-").getD 1 "",
       qr := qr, status := "進行中" }] }
  let classStudents := st.students.filter (fun s =>
    (splitClasses s.classes).contains course.classCode && s.lineId != "")
  let batch : List (String × String) := classStudents.filterMap (fun s =>
    if fm.pushFails s.lineId then none
    else some (s.lineId, "📢 上課提醒 - " ++ course.subject))
  let st : Store := { st with outbox := st.outbox ++ batch }
  { st with reminders := st.reminders ++
    [{ courseId := course.courseId, date := today, typ := "上課提醒",
       sentAt := nowStr }] }

/-- One course inside `autoClassReminder`.  `remindersSnapshot` is the
提醒紀錄 read once before the loop; `sid` is the fresh `S${Date.now()}`
identifier.  A course outside its window is skipped; inside the window
the dedup ledger snapshot is consulted and only an unsent course fires. -/
def reminderStep (fm : FaultModel) (remindersSnapshot : List ReminderRow)
    (remindMinutes currentTotalMin : Int) (today nowStr sid : String)
    (st : Store) (course : CourseRow) : Store :=
  if windowOpen course remindMinutes currentTotalMin then
    if reminderSent remindersSnapshot course.courseId today then st
    else fireReminder fm st course today nowStr sid
  else st

/-- `autoClassReminder()`: the every-minute sweep.  `mkSid i` models the
`S${Date.now()}` identifier minted for the i-th firing course. -/
def autoClassReminder (fm : FaultModel) (st0 : Store)
    (dayOfWeek currentTotalMin : Int) (today nowStr : String)
    (mkSid : Nat → String) : Store :=
  let settings := reminderSettings st0
  if !settings.1 then st0
  else
    let todayCourses := todayCoursesOf st0 dayOfWeek
    if todayCourses.isEmpty then st0
    else
      todayCourses.enum.foldl (fun st p =>
        reminderStep fm st0.reminders settings.2 currentTotalMin today nowStr
          (mkSid p.1) st p.2) st0

/-! ## POST /api/sessions (server.js lines 2008–2032) -/

/-- The session-creation endpoint: mints `S${Date.now()}` (passed in as
`sessionId`), appends the row in state 進行中 and answers success.  There
is no lookup of existing sessions and no failure path. -/
def postApiSessions (st : Store) (courseId date startTime endTime sessionId : String) :
    Store × String :=
  let qrContent := "直接簽到:" ++ courseId ++ "|" ++ sessionId
  ({ st with sessions := st.sessions ++
    [{ sessionId := sessionId, courseId := courseId, date := date,
       startTime := startTime, endTime := endTime, qr := qrContent,
       status := "進行中" }] },
   qrContent)

/-! ## Shared witness data -/

/-- A registered student bound to LINE account U1. -/
def wStu : StudentRow :=
  { studentId := "123456", name := "王小明", classes := "801",
    lineId := "U1", lineName := "Ming", regTime := "", status := "正常" }

/-- A second enrolled student bound to LINE account U2. -/
def wStu2 : StudentRow :=
  { studentId := "654321", name := "李小華", classes := "801",
    lineId := "U2", lineName := "Hua", regTime := "", status := "正常" }

/-- A GPS-gated course: radius 50 m, classroom (25, 121), threshold 10. -/
def wCourse : CourseRow :=
  { courseId := "C1", subject := "數學", classCode := "801",
    weekday := "1", courseTime := "08:00-09:00", classroom := "",
    classroomLat := some 25, classroomLon := some 121, rawRadius := "50",
    lateStd := "10", status := "啟用" }

/-- Today's open session of `wCourse`. -/
def wSession : SessionRow :=
  { sessionId := "S100", courseId := "C1", date := "2026-10-12",
    startTime := "08:00", endTime := "09:00", qr := "", status := "進行中" }

/-- Base store: one student, one course, today's open session, no records. -/
def wSt : Store :=
  { students := [wStu], courses := [wCourse], sessions := [wSession],
    records := [], stats := [], reminders := [], settings := [], outbox := [] }

/-- An attendance record already present for (S100, 123456). -/
def wRec : AttRow :=
  { sessionId := "S100", studentId := "123456", time := "08:05",
    status := "已報到", lateMin := 0, gpsLat := "", gpsLon := "", note := "" }

/-! ## Helper lemmas -/

/-- `updateStatistics` only touches the 出席統計 sheet. -/
theorem updateStatistics_records (st : Store) (pid status nowStr : String) :
    (updateStatistics st pid status nowStr).records = st.records := rfl

/-- `sendCheckinNotification` only touches the outbox. -/
theorem sendCheckinNotification_records (fm : FaultModel) (st : Store)
    (sid pid status : String) (lm : Int) :
    (sendCheckinNotification fm st sid pid status lm).records = st.records := by
  unfold sendCheckinNotification
  repeat' first
    | rfl
    | split

/-- No two records share a (session, person) pair. -/
def UniquePairs (records : List AttRow) : Prop :=
  records.Pairwise (fun a b => ¬(a.sessionId = b.sessionId ∧ a.studentId = b.studentId))

/-- A `recordAttendance` call on a pair with no existing record and a
non-failing append succeeds and appends exactly the one new row. -/
theorem recordAttendance_fresh (fm : FaultModel) (st : Store)
    (sid pid status : String) (lm : Int) (glat glon : String) (sn : Bool)
    (nowStr : String)
    (hnone : checkExistingAttendance st.records sid pid = none)
    (hnf : fm.addRowFails sid pid = false) :
    ∃ st', recordAttendance fm st sid pid status lm glat glon sn nowStr =
        .ok ({ success := true, message := "簽到成功！", status := status }, st') ∧
      st'.records = st.records ++
        [{ sessionId := sid, studentId := pid, time := nowStr, status := status,
           lateMin := lm, gpsLat := glat, gpsLon := glon, note := "" }] := by
  unfold recordAttendance
  rw [hnone]
  simp only [hnf, Bool.false_eq_true, if_false]
  refine ⟨_, rfl, ?_⟩
  cases sn <;>
    simp [updateStatistics_records, sendCheckinNotification_records]

/-! ## C1 -/

/-- C1: `recordAttendance` is at-most-once per (session, person) pair.
A call for a pair with an existing record returns a failure carrying the
existing record's status and leaves the whole store untouched (no row,
no statistics update, no notification); a call for a fresh pair appends
exactly one row; and every successful call preserves uniqueness of
(session, person) pairs across the 簽到紀錄 sheet. -/
theorem c1_recordAttendance_at_most_once (fm : FaultModel) (st : Store)
    (sid pid status : String) (lm : Int) (glat glon : String) (sn : Bool)
    (nowStr : String) :
    (∀ ex, checkExistingAttendance st.records sid pid = some ex →
        recordAttendance fm st sid pid status lm glat glon sn nowStr =
          .ok ({ success := false, message := "您已經簽到過了！",
                 status := ex.status }, st)) ∧
    (checkExistingAttendance st.records sid pid = none →
        fm.addRowFails sid pid = false →
        ∃ st', recordAttendance fm st sid pid status lm glat glon sn nowStr =
            .ok ({ success := true, message := "簽到成功！", status := status }, st') ∧
          st'.records = st.records ++
            [{ sessionId := sid, studentId := pid, time := nowStr, status := status,
               lateMin := lm, gpsLat := glat, gpsLon := glon, note := "" }]) ∧
    (∀ res st', recordAttendance fm st sid pid status lm glat glon sn nowStr =
        .ok (res, st') → UniquePairs st.records → UniquePairs st'.records) := by
  refine ⟨?_, ?_, ?_⟩
  · intro ex hex
    unfold recordAttendance
    rw [hex]
  · intro hnone hnf
    exact recordAttendance_fresh fm st sid pid status lm glat glon sn nowStr hnone hnf
  · intro res st' h hUniq
    unfold recordAttendance at h
    cases hfind : checkExistingAttendance st.records sid pid with
    | some ex =>
        rw [hfind] at h
        injection h with h'
        injection h' with _ h2
        rw [← h2]
        exact hUniq
    | none =>
        rw [hfind] at h
        cases haf : fm.addRowFails sid pid with
        | true => rw [haf] at h; simp at h
        | false =>
          simp only [haf, Bool.false_eq_true, if_false] at h
          injection h with h'
          injection h' with _ h2
          have hrec : st'.records = st.records ++
              [{ sessionId := sid, studentId := pid, time := nowStr,
                 status := status, lateMin := lm, gpsLat := glat, gpsLon := glon,
                 note := "" }] := by
            rw [← h2]
            cases sn <;>
              simp [updateStatistics_records, sendCheckinNotification_records]
          rw [UniquePairs, hrec]
          rw [List.pairwise_append]
          refine ⟨hUniq, List.pairwise_singleton _ _, ?_⟩
          intro a ha b hb hab
          have hb' : b.sessionId = sid ∧ b.studentId = pid := by
            simp only [List.mem_singleton] at hb
            subst hb
            exact ⟨rfl, rfl⟩
          have : ¬((a.sessionId == sid && a.studentId == pid) = true) :=
            List.find?_eq_none.mp hfind a ha
          apply this
          have ha1 : a.sessionId = sid := hab.1.trans hb'.1
          have ha2 : a.studentId = pid := hab.2.trans hb'.2
          simp [ha1, ha2]

/-- Concrete run of C1: with an existing (S100, 123456) record the call
fails carrying the prior 已報到 status and changes nothing; on the fresh
store the call appends exactly the one new row. -/
theorem c1_recordAttendance_at_most_once_witness :
    (recordAttendance noFaults { wSt with records := [wRec] }
        "S100" "123456" "遲到" 5 "" "" true "T" =
      .ok ({ success := false, message := "您已經簽到過了！", status := "已報到" },
           { wSt with records := [wRec] })) ∧
    (∃ st', recordAttendance noFaults wSt "S100" "123456" "已報到" 0 "" "" true "T" =
        .ok ({ success := true, message := "簽到成功！", status := "已報到" }, st') ∧
      st'.records = wSt.records ++
        [{ sessionId := "S100", studentId := "123456", time := "T",
           status := "已報到", lateMin := 0, gpsLat := "", gpsLon := "",
           note := "" }]) :=
  ⟨(c1_recordAttendance_at_most_once noFaults { wSt with records := [wRec] }
      "S100" "123456" "遲到" 5 "" "" true "T").1 wRec rfl,
   (c1_recordAttendance_at_most_once noFaults wSt
      "S100" "123456" "已報到" 0 "" "" true "T").2.1 rfl rfl⟩

/-! ## C2 -/

/-- Main-path lemma for `handleDirectCheckin`: a registered student, a
well-formed code, a found course, a resolved session and no existing
record give a successful run that appends exactly the classified
record.  The status and 遲到分鐘 depend only on `nowMs`, the session's
開始時間 and the course's 遲到標準. -/
theorem handleDirectCheckin_fresh_spec (st : Store)
    (uid text today nowStr : String) (nowMs : Int) (stu : StudentRow)
    (course : CourseRow) (session : SessionRow)
    (hstu : getStudent st uid = some stu)
    (hlen : 2 ≤ (splitOnJS (replaceFirst text "直接簽到:" "") "|").length)
    (hcourse : getCourse st
      ((splitOnJS (replaceFirst text "直接簽到:" "") "|").getD 0 "") = some course)
    (hsession : resolveSession st
      ((splitOnJS (replaceFirst text "直接簽到:" "") "|").getD 0 "")
      ((splitOnJS (replaceFirst text "直接簽到:" "") "|").getD 1 "") today =
      some session)
    (hnodup : checkExistingAttendance st.records session.sessionId stu.studentId =
      none) :
    ∃ st',
      handleDirectCheckin noFaults st uid text today nowMs nowStr =
        .ok (.text (directSuccessMsg course.subject stu.name
          (if jsGt (diffMinutesOf nowMs session.startTime)
              (intOr (parseIntJS course.lateStd) 10) then "遲到" else "已報到")
          ((diffMinutesOf nowMs session.startTime).getD 0)), st') ∧
      st'.records = st.records ++
        [{ sessionId := session.sessionId, studentId := stu.studentId,
           time := nowStr,
           status := if jsGt (diffMinutesOf nowMs session.startTime)
              (intOr (parseIntJS course.lateStd) 10) then "遲到" else "已報到",
           lateMin := if jsGt (diffMinutesOf nowMs session.startTime)
              (intOr (parseIntJS course.lateStd) 10)
             then (diffMinutesOf nowMs session.startTime).getD 0 else 0,
           gpsLat := "", gpsLon := "", note := "" }] := by
  have hlen' : ¬((splitOnJS (replaceFirst text "直接簽到:" "") "|").length < 2) :=
    Nat.not_lt.mpr hlen
  obtain ⟨st', hrec, hrecs⟩ := recordAttendance_fresh noFaults st
    session.sessionId stu.studentId
    (if jsGt (diffMinutesOf nowMs session.startTime)
        (intOr (parseIntJS course.lateStd) 10) then "遲到" else "已報到")
    (if jsGt (diffMinutesOf nowMs session.startTime)
        (intOr (parseIntJS course.lateStd) 10)
      then (diffMinutesOf nowMs session.startTime).getD 0 else 0)
    "" "" true nowStr hnodup rfl
  refine ⟨st', ?_, hrecs⟩
  simp only [handleDirectCheckin, hstu, hlen', if_false, hcourse, hsession,
    hnodup, hrec, if_true]

/-- Admitted-path lemma for `handleLocation`: in the `waitingLocation`
step, with the freshly re-read radius `r` and the computed distance not
exceeding it, and no existing record, the handler records the classified
attendance, clears the conversation state and replies with the success
message. -/
theorem handleLocation_admitted_spec (calcDistance : ℚ → ℚ → ℚ → ℚ → ℚ)
    (st : Store) (state : UserState) (uid : String) (lat lon : ℚ)
    (nowMs : Int) (nowStr : String) (stu : StudentRow) (course : CourseRow)
    (r : Int)
    (hstep : state.step = "waitingLocation")
    (hstu : getStudent st uid = some stu)
    (hcourse : getCourse st state.courseId = some course)
    (hrad : effRadius course state = some r)
    (hdist : calcDistance lat lon (effCoord course.classroomLat state.classroomLat)
      (effCoord course.classroomLon state.classroomLon) ≤ (r : ℚ))
    (hnodup : checkExistingAttendance st.records state.sessionId stu.studentId =
      none) :
    ∃ st',
      handleLocation noFaults calcDistance st (some state) uid lat lon
          nowMs nowStr =
        .ok (.text (locationSuccessMsg state.courseName nowStr
          (jsRound (calcDistance lat lon
            (effCoord course.classroomLat state.classroomLat)
            (effCoord course.classroomLon state.classroomLon)))
          (if jsGt (diffMinutesOf nowMs state.startTime) state.lateMinutes
            then "遲到" else "已報到")
          (if jsGt (diffMinutesOf nowMs state.startTime) state.lateMinutes
            then (diffMinutesOf nowMs state.startTime).getD 0 else 0)),
          st', none) ∧
      st'.records = st.records ++
        [{ sessionId := state.sessionId, studentId := stu.studentId,
           time := nowStr,
           status := if jsGt (diffMinutesOf nowMs state.startTime)
              state.lateMinutes then "遲到" else "已報到",
           lateMin := if jsGt (diffMinutesOf nowMs state.startTime)
              state.lateMinutes
             then (diffMinutesOf nowMs state.startTime).getD 0 else 0,
           gpsLat := toString lat, gpsLon := toString lon, note := "" }] := by
  have hd' : ¬(calcDistance lat lon (effCoord course.classroomLat state.classroomLat)
      (effCoord course.classroomLon state.classroomLon) > (r : ℚ)) :=
    not_lt.mpr hdist
  obtain ⟨st', hrec, hrecs⟩ := recordAttendance_fresh noFaults st
    state.sessionId stu.studentId
    (if jsGt (diffMinutesOf nowMs state.startTime) state.lateMinutes
      then "遲到" else "已報到")
    (if jsGt (diffMinutesOf nowMs state.startTime) state.lateMinutes
      then (diffMinutesOf nowMs state.startTime).getD 0 else 0)
    (toString lat) (toString lon) true nowStr hnodup rfl
  refine ⟨st', ?_, hrecs⟩
  simp only [handleLocation, hstep, hstu, hcourse, hrad, hrec,
    bne_self_eq_false, Bool.false_eq_true, if_false, decide_eq_true_eq,
    decide_eq_false_iff_not]
  simp [hd']

/-- C2: on both learner check-in paths (venue QR code and the admitted
GPS-location flow), with `d = Math.floor((now − sessionStart)/60000)`
and the course's late threshold `t`, the recorded status is 遲到 exactly
when `d > t` (the threshold itself is on time), and 遲到分鐘 is the full
`d` when late and 0 otherwise. -/
theorem c2_late_iff_strictly_over_threshold :
    (∀ (st : Store) (uid text today nowStr : String) (nowMs : Int)
       (stu : StudentRow) (course : CourseRow) (session : SessionRow) (d : Int),
      getStudent st uid = some stu →
      2 ≤ (splitOnJS (replaceFirst text "直接簽到:" "") "|").length →
      getCourse st ((splitOnJS (replaceFirst text "直接簽到:" "") "|").getD 0 "") =
        some course →
      resolveSession st ((splitOnJS (replaceFirst text "直接簽到:" "") "|").getD 0 "")
        ((splitOnJS (replaceFirst text "直接簽到:" "") "|").getD 1 "") today =
        some session →
      checkExistingAttendance st.records session.sessionId stu.studentId = none →
      diffMinutesOf nowMs session.startTime = some d →
      ∃ reply st',
        handleDirectCheckin noFaults st uid text today nowMs nowStr =
          .ok (reply, st') ∧
        st'.records = st.records ++
          [{ sessionId := session.sessionId, studentId := stu.studentId,
             time := nowStr,
             status := if d > intOr (parseIntJS course.lateStd) 10
               then "遲到" else "已報到",
             lateMin := if d > intOr (parseIntJS course.lateStd) 10 then d else 0,
             gpsLat := "", gpsLon := "", note := "" }] ∧
        ((if d > intOr (parseIntJS course.lateStd) 10 then "遲到" else "已報到") =
            "遲到" ↔ d > intOr (parseIntJS course.lateStd) 10)) ∧
    (∀ (calcDistance : ℚ → ℚ → ℚ → ℚ → ℚ) (st : Store) (state : UserState)
       (uid : String) (lat lon : ℚ) (nowMs : Int) (nowStr : String)
       (stu : StudentRow) (course : CourseRow) (r d : Int),
      state.step = "waitingLocation" →
      getStudent st uid = some stu →
      getCourse st state.courseId = some course →
      effRadius course state = some r →
      calcDistance lat lon (effCoord course.classroomLat state.classroomLat)
          (effCoord course.classroomLon state.classroomLon) ≤ (r : ℚ) →
      checkExistingAttendance st.records state.sessionId stu.studentId = none →
      diffMinutesOf nowMs state.startTime = some d →
      ∃ reply st',
        handleLocation noFaults calcDistance st (some state) uid lat lon
            nowMs nowStr = .ok (reply, st', none) ∧
        st'.records = st.records ++
          [{ sessionId := state.sessionId, studentId := stu.studentId,
             time := nowStr,
             status := if d > state.lateMinutes then "遲到" else "已報到",
             lateMin := if d > state.lateMinutes then d else 0,
             gpsLat := toString lat, gpsLon := toString lon, note := "" }] ∧
        ((if d > state.lateMinutes then "遲到" else "已報到") = "遲到" ↔
          d > state.lateMinutes)) := by
  constructor
  · intro st uid text today nowStr nowMs stu course session d
      hstu hlen hcourse hsession hnodup hdiff
    obtain ⟨st', hmain, hrecs⟩ := handleDirectCheckin_fresh_spec st uid text
      today nowStr nowMs stu course session hstu hlen hcourse hsession hnodup
    refine ⟨_, st', hmain, ?_, ?_⟩
    · rw [hrecs, hdiff]
      simp only [jsGt, Option.getD, decide_eq_true_eq]
    · by_cases h : d > intOr (parseIntJS course.lateStd) 10 <;> simp [h]
  · intro calcDistance st state uid lat lon nowMs nowStr stu course r d
      hstep hstu hcourse hrad hdist hnodup hdiff
    obtain ⟨st', hmain, hrecs⟩ := handleLocation_admitted_spec calcDistance st
      state uid lat lon nowMs nowStr stu course r hstep hstu hcourse hrad
      hdist hnodup
    refine ⟨_, st', hmain, ?_, ?_⟩
    · rw [hrecs, hdiff]
      simp only [jsGt, Option.getD, decide_eq_true_eq]
    · by_cases h : d > state.lateMinutes <;> simp [h]

/-- Concrete boundary run of C2: threshold 10, session start 08:00 — a
direct check-in at 08:10 records 已報到 with 0 late minutes, one at
08:11 records 遲到 with 遲到分鐘 11. -/
theorem c2_late_iff_strictly_over_threshold_witness :
    (∃ reply st',
      handleDirectCheckin noFaults wSt "U1" "直接簽到:C1|S100" "2026-10-12"
          ((8 * 60 + 10) * 60000) "T" = .ok (reply, st') ∧
      st'.records = wSt.records ++
        [{ sessionId := "S100", studentId := "123456", time := "T",
           status := "已報到", lateMin := 0, gpsLat := "", gpsLon := "",
           note := "" }]) ∧
    (∃ reply st',
      handleDirectCheckin noFaults wSt "U1" "直接簽到:C1|S100" "2026-10-12"
          ((8 * 60 + 11) * 60000) "T" = .ok (reply, st') ∧
      st'.records = wSt.records ++
        [{ sessionId := "S100", studentId := "123456", time := "T",
           status := "遲到", lateMin := 11, gpsLat := "", gpsLon := "",
           note := "" }]) := by
  constructor
  · obtain ⟨reply, st', h1, h2, _⟩ :=
      c2_late_iff_strictly_over_threshold.1 wSt "U1" "直接簽到:C1|S100"
        "2026-10-12" "T" ((8 * 60 + 10) * 60000) wStu wCourse wSession 10
        rfl (by decide) (by decide) (by decide) rfl (by decide)
    exact ⟨reply, st', h1, by simpa using h2⟩
  · obtain ⟨reply, st', h1, h2, _⟩ :=
      c2_late_iff_strictly_over_threshold.1 wSt "U1" "直接簽到:C1|S100"
        "2026-10-12" "T" ((8 * 60 + 11) * 60000) wStu wCourse wSession 11
        rfl (by decide) (by decide) (by decide) rfl (by decide)
    exact ⟨reply, st', h1, by simpa using h2⟩

/-! ## C5 -/

/-- The 簽到活動 rows for a (course, date) pair that are not 已結束,
i.e. the open-or-closing sessions of that pair. -/
def openSessionsFor (st : Store) (courseId date : String) : List SessionRow :=
  st.sessions.filter (fun s =>
    s.courseId == courseId && s.date == date && s.status != "已結束")

/-- C5 counterexample: `wSt` already holds an open (進行中) session for
(C1, 2026-10-12), yet `POST /api/sessions` for the same pair answers
success (it has no failure path at all) and leaves the pair with TWO
open sessions — no `ConflictError` is raised anywhere in the code. -/
theorem c5_counterexample_second_open_session :
    ((postApiSessions wSt "C1" "2026-10-12" "10:00" "11:00" "S200").2 =
      "直接簽到:C1|S200") ∧
    (openSessionsFor (postApiSessions wSt "C1" "2026-10-12" "10:00" "11:00" "S200").1
      "C1" "2026-10-12").length = 2 := by
  constructor
  · rfl
  · decide

/-- C5 (amended): `POST /api/sessions` performs no conflict check and
cannot fail: whatever the store holds, it appends one fresh 進行中 row
for the pair, so the number of open-or-closing sessions of that
(course, date) pair strictly grows — the at-most-one-open invariant is
not enforced and no `ConflictError` exists. -/
theorem c5_postApiSessions_never_conflicts (st : Store)
    (courseId date startTime endTime sid : String) :
    openSessionsFor (postApiSessions st courseId date startTime endTime sid).1
        courseId date =
      openSessionsFor st courseId date ++
        [{ sessionId := sid, courseId := courseId, date := date,
           startTime := startTime, endTime := endTime,
           qr := "直接簽到:" ++ courseId ++ "|" ++ sid, status := "進行中" }] := by
  simp [openSessionsFor, postApiSessions, List.filter_append]


/-! ## C4 -/

/-- Rewrite every course's geofence configuration (簽到範圍, 教室緯度,
教室經度), leaving every other cell and sheet untouched. -/
def gfCourse (r' : String) (la' lo' : Option ℚ) (c : CourseRow) : CourseRow :=
  { c with rawRadius := r', classroomLat := la', classroomLon := lo' }

/-- `setGeofence st r' la' lo'`: the store with every course's geofence
configuration rewritten. -/
def setGeofence (st : Store) (r' : String) (la' lo' : Option ℚ) : Store :=
  { st with courses := st.courses.map (gfCourse r' la' lo') }

theorem getCourse_setGeofence (st : Store) (cid r' : String) (la' lo' : Option ℚ) :
    getCourse (setGeofence st r' la' lo') cid =
      (getCourse st cid).map (gfCourse r' la' lo') := by
  simp only [getCourse, setGeofence, List.find?_map]
  rfl

theorem updateStatistics_setGeofence (st : Store) (pid status nowStr r' : String)
    (la' lo' : Option ℚ) :
    updateStatistics (setGeofence st r' la' lo') pid status nowStr =
      setGeofence (updateStatistics st pid status nowStr) r' la' lo' := rfl

theorem sendCheckinNotification_setGeofence (fm : FaultModel) (st : Store)
    (sid pid status r' : String) (lm : Int) (la' lo' : Option ℚ) :
    sendCheckinNotification fm (setGeofence st r' la' lo') sid pid status lm =
      setGeofence (sendCheckinNotification fm st sid pid status lm) r' la' lo' := by
  unfold sendCheckinNotification
  show (match st.students.find? (fun s => s.studentId == pid) with
    | none => _ | some student => _) = _
  cases st.students.find? (fun s => s.studentId == pid) with
  | none => rfl
  | some student =>
    dsimp only
    by_cases hl : (student.lineId == "") = true
    · simp only [hl, if_true]
    · simp only [hl, if_false]
      show (match st.sessions.find? (fun s => s.sessionId == sid) with
        | none => _ | some session => _) = _
      cases st.sessions.find? (fun s => s.sessionId == sid) with
      | none => rfl
      | some session =>
        dsimp only
        rw [show (setGeofence st r' la' lo').courses =
          st.courses.map (gfCourse r' la' lo') from rfl, List.find?_map]
        show (match (st.courses.find?
            (fun c => c.courseId == session.courseId)).map (gfCourse r' la' lo') with
          | none => _ | some course => _) = _
        cases st.courses.find? (fun c => c.courseId == session.courseId) with
        | none => rfl
        | some course =>
          dsimp only [Option.map, gfCourse]
          repeat' first
          | rfl
          | split

theorem recordAttendance_setGeofence (fm : FaultModel) (st : Store)
    (sid pid status : String) (lm : Int) (glat glon : String) (sn : Bool)
    (nowStr r' : String) (la' lo' : Option ℚ) :
    recordAttendance fm (setGeofence st r' la' lo') sid pid status lm glat glon
        sn nowStr =
      match recordAttendance fm st sid pid status lm glat glon sn nowStr with
      | .ok (res, st') => .ok (res, setGeofence st' r' la' lo')
      | .error st' => .error (setGeofence st' r' la' lo') := by
  unfold recordAttendance
  show (match checkExistingAttendance st.records sid pid with
    | some existing => _ | none => _) = _
  cases checkExistingAttendance st.records sid pid with
  | some existing => rfl
  | none =>
    dsimp only
    cases hf : fm.addRowFails sid pid with
    | true => simp only [hf, if_true]
    | false =>
      simp only [hf, Bool.false_eq_true, if_false]
      cases sn with
      | true =>
        simp only [if_true]
        have key : sendCheckinNotification fm (updateStatistics (setGeofence
              ({ st with records := st.records ++
                [{ sessionId := sid, studentId := pid, time := nowStr,
                   status := status, lateMin := lm, gpsLat := glat,
                   gpsLon := glon, note := "" }] }) r' la' lo') pid status nowStr)
            sid pid status lm =
            setGeofence (sendCheckinNotification fm (updateStatistics
              ({ st with records := st.records ++
                [{ sessionId := sid, studentId := pid, time := nowStr,
                   status := status, lateMin := lm, gpsLat := glat,
                   gpsLon := glon, note := "" }] }) pid status nowStr)
              sid pid status lm) r' la' lo' := by
          rw [updateStatistics_setGeofence, sendCheckinNotification_setGeofence]
        exact congrArg
          (fun s => (Except.ok
            ({ success := true, message := "簽到成功！", status := status }, s) :
            Except Store (RecordResult × Store))) key
      | false =>
        simp only [Bool.false_eq_true, if_false]
        rfl

/-- `handleDirectCheckin` commutes with rewriting every course's
geofence configuration: the reply and every non-course sheet of the
resulting store are identical whatever 簽到範圍 / 教室緯度 / 教室經度
hold — the direct (venue-scan) path reads none of them. -/
theorem handleDirectCheckin_setGeofence (fm : FaultModel) (st : Store)
    (uid text today : String) (nowMs : Int) (nowStr r' : String)
    (la' lo' : Option ℚ) :
    handleDirectCheckin fm (setGeofence st r' la' lo') uid text today nowMs nowStr =
      match handleDirectCheckin fm st uid text today nowMs nowStr with
      | .ok (reply, st') => .ok (reply, setGeofence st' r' la' lo')
      | .error st' => .error (setGeofence st' r' la' lo') := by
  unfold handleDirectCheckin
  dsimp only
  rw [show getStudent (setGeofence st r' la' lo') uid = getStudent st uid from rfl,
      getCourse_setGeofence,
      show ∀ a b c, resolveSession (setGeofence st r' la' lo') a b c =
        resolveSession st a b c from fun _ _ _ => rfl,
      show (setGeofence st r' la' lo').records = st.records from rfl]
  cases getStudent st uid with
  | none => rfl
  | some student =>
    dsimp only
    split
    · rfl
    · cases getCourse st
        ((splitOnJS (replaceFirst text "直接簽到:" "") "|").getD 0 "") with
      | none => rfl
      | some course =>
        dsimp only [Option.map, gfCourse]
        cases resolveSession st
            ((splitOnJS (replaceFirst text "直接簽到:" "") "|").getD 0 "")
            ((splitOnJS (replaceFirst text "直接簽到:" "") "|").getD 1 "") today with
        | none => rfl
        | some session =>
          dsimp only
          cases checkExistingAttendance st.records session.sessionId
              student.studentId with
          | some ex => rfl
          | none =>
            dsimp only
            rw [recordAttendance_setGeofence]
            cases recordAttendance fm st session.sessionId student.studentId
                (if jsGt (diffMinutesOf nowMs session.startTime)
                    (intOr (parseIntJS course.lateStd) 10)
                  then "遲到" else "已報到")
                (if jsGt (diffMinutesOf nowMs session.startTime)
                    (intOr (parseIntJS course.lateStd) 10)
                  then (diffMinutesOf nowMs session.startTime).getD 0 else 0)
                "" "" true nowStr with
            | error st' => rfl
            | ok p =>
              obtain ⟨result, st'⟩ := p
              dsimp only
              split <;> rfl

/-- `wCourse` switched to 現場簽到 mode: 簽到範圍 = −1. -/
def c4Course : CourseRow := { wCourse with rawRadius := "-1" }

/-- Store with the −1-radius course and no attendance yet. -/
def c4StFresh : Store := { wSt with courses := [c4Course] }

/-- Store with the −1-radius course and an existing (S100, 123456) record. -/
def c4StDup : Store := { wSt with courses := [c4Course], records := [wRec] }

/-- C4 counterexample: for a registered student with a valid session on
a radius −1 course who ALREADY has an attendance record, the gps-mode
code is answered with the duplicate-info reply, not the venue-only
message — the duplicate check runs before the radius check, so "always
rejected with a venue-only message" is false as stated (though still no
record is created). -/
theorem c4_counterexample_duplicate_beats_venue_reject :
    handleGPSCheckin noFaults c4StDup none "U1" "GPS簽到:C1|S100" "2026-10-12"
        ((8 * 60 + 9) * 60000) "T" =
      .ok (.text (alreadyCheckedMsg "數學" "08:05"), c4StDup, none) ∧
    alreadyCheckedMsg "數學" "08:05" ≠ venueOnlyMsg := by
  constructor
  · rfl
  · decide

/-- C4 (amended): (1) a gps-mode code for a radius −1 course, for a
registered student and valid session **with no existing record for the
pair**, is rejected with the venue-only message and mutates nothing
(with an existing record the duplicate-info reply is returned instead,
and still nothing is recorded); (2) the direct-mode handler never
consults radius or coordinates: rewriting every course's geofence
configuration changes neither its reply nor any non-course sheet of the
resulting store, for every fault model and radius value. -/
theorem c4_gps_minus1_venue_only_and_direct_ignores_geofence :
    (∀ (st : Store) (us : Option UserState) (uid text today nowStr : String)
       (nowMs : Int) (stu : StudentRow) (course : CourseRow) (session : SessionRow),
      getStudent st uid = some stu →
      2 ≤ (splitOnJS (replaceFirst text "GPS簽到:" "") "|").length →
      getCourse st ((splitOnJS (replaceFirst text "GPS簽到:" "") "|").getD 0 "") =
        some course →
      course.rawRadius = "-1" →
      resolveSession st ((splitOnJS (replaceFirst text "GPS簽到:" "") "|").getD 0 "")
        ((splitOnJS (replaceFirst text "GPS簽到:" "") "|").getD 1 "") today =
        some session →
      checkExistingAttendance st.records session.sessionId stu.studentId = none →
      handleGPSCheckin noFaults st us uid text today nowMs nowStr =
        .ok (.text venueOnlyMsg, st, us)) ∧
    (∀ (fm : FaultModel) (st : Store) (uid text today : String) (nowMs : Int)
       (nowStr r' : String) (la' lo' : Option ℚ),
      handleDirectCheckin fm (setGeofence st r' la' lo') uid text today nowMs
          nowStr =
        match handleDirectCheckin fm st uid text today nowMs nowStr with
        | .ok (reply, st') => .ok (reply, setGeofence st' r' la' lo')
        | .error st' => .error (setGeofence st' r' la' lo')) := by
  constructor
  · intro st us uid text today nowStr nowMs stu course session
      hstu hlen hcourse hrad hsession hnodup
    have hlen' : ¬((splitOnJS (replaceFirst text "GPS簽到:" "") "|").length < 2) :=
      Nat.not_lt.mpr hlen
    have e1 : (("-1" : String) == "") = false := by decide
    have e2 : parseIntJS "-1" = some (-1) := by decide
    have e3 : ((some (-1) : Option Int) == some (-1)) = true := by decide
    simp only [handleGPSCheckin, hstu, hlen', if_false, hcourse, hsession,
      hnodup, hrad, e1, e2, Bool.false_eq_true, e3, if_true]
  · intro fm st uid text today nowMs nowStr r' la' lo'
    exact handleDirectCheckin_setGeofence fm st uid text today nowMs nowStr r' la' lo'

/-- Concrete run of C4 (amended): on the fresh −1-radius store the gps
code gets the venue-only reply and nothing changes; and the direct
handler on `wSt` with its geofence rewritten to (−1, none, none) behaves
exactly as on `wSt`. -/
theorem c4_gps_minus1_venue_only_witness :
    (handleGPSCheckin noFaults c4StFresh none "U1" "GPS簽到:C1|S100" "2026-10-12"
        ((8 * 60 + 9) * 60000) "T" =
      .ok (.text venueOnlyMsg, c4StFresh, none)) ∧
    (handleDirectCheckin noFaults (setGeofence wSt "-1" none none) "U1"
        "直接簽到:C1|S100" "2026-10-12" ((8 * 60 + 9) * 60000) "T" =
      match handleDirectCheckin noFaults wSt "U1" "直接簽到:C1|S100" "2026-10-12"
          ((8 * 60 + 9) * 60000) "T" with
      | .ok (reply, st') => .ok (reply, setGeofence st' "-1" none none)
      | .error st' => .error (setGeofence st' "-1" none none)) :=
  ⟨c4_gps_minus1_venue_only_and_direct_ignores_geofence.1 c4StFresh none "U1"
      "GPS簽到:C1|S100" "2026-10-12" "T" ((8 * 60 + 9) * 60000) wStu c4Course
      wSession rfl (by decide) (by decide) rfl (by decide) rfl,
   c4_gps_minus1_venue_only_and_direct_ignores_geofence.2 noFaults wSt "U1"
      "直接簽到:C1|S100" "2026-10-12" ((8 * 60 + 9) * 60000) "T" "-1" none none⟩

/-! ## C7 -/

theorem updateFirst_length (p : α → Bool) (f : α → α) (l : List α) :
    (updateFirst p f l).length = l.length := by
  induction l with
  | nil => rfl
  | cons x xs ih =>
    unfold updateFirst
    split
    · rfl
    · simp [ih]

/-- Decompose a list around the first element matched by `p`: the part
before it contains no match, and `updateFirst` rewrites only that
element. -/
theorem find?_updateFirst_decomp (p : α → Bool) (f : α → α) (l : List α)
    (r : α) (hfind : l.find? p = some r) :
    ∃ l1 l2, l = l1 ++ r :: l2 ∧ (∀ x ∈ l1, p x = false) ∧
      updateFirst p f l = l1 ++ f r :: l2 := by
  induction l with
  | nil => simp at hfind
  | cons x xs ih =>
    cases hx : p x with
    | true =>
      rw [List.find?_cons_of_pos _ hx] at hfind
      injection hfind with hr
      subst hr
      exact ⟨[], xs, rfl, by simp, by unfold updateFirst; simp [hx]⟩
    | false =>
      rw [List.find?_cons_of_neg _ (by simp [hx])] at hfind
      obtain ⟨l1, l2, heq, hnomatch, hupd⟩ := ih hfind
      refine ⟨x :: l1, l2, by simp [heq], ?_, ?_⟩
      · intro y hy
        rcases List.mem_cons.mp hy with h | h
        · subst h; exact hx
        · exact hnomatch y h
      · unfold updateFirst
        simp [hx, hupd]

/-- C7: re-registering an existing 學號 from the SAME LINE account is
refused with 您已經註冊過了 and changes nothing; from a DIFFERENT LINE
account it succeeds as a rebind that overwrites the stored token in
place (no extra row), after which — when the 學號 had exactly one row
and the new token was unused — lookups by the new token resolve to that
person and lookups by the old token no longer do. -/
theorem c7_register_same_token_fails_new_token_rebinds (st : Store)
    (lineUserId lineName studentId studentName className nowStr : String) :
    (∀ r, st.students.find? (fun row => row.studentId == studentId) = some r →
      r.lineId = lineUserId →
      registerStudent st lineUserId lineName studentId studentName className
          nowStr =
        ({ success := false, message := "您已經註冊過了！" }, st)) ∧
    (∀ r, st.students.find? (fun row => row.studentId == studentId) = some r →
      r.lineId ≠ lineUserId →
      st.students.filter (fun row => row.studentId == studentId) = [r] →
      st.students.filter (fun row => row.lineId == lineUserId) = [] →
      ∃ st', registerStudent st lineUserId lineName studentId studentName
          className nowStr =
          ({ success := true, message := "偵測到您使用新裝置，已為您更新綁定資料。" }, st') ∧
        st'.students.length = st.students.length ∧
        getStudent st' lineUserId =
          some ({ r with lineId := lineUserId, lineName := lineName, status := "正常", regTime := nowStr }) ∧
        (∀ row, getStudent st' r.lineId = some row → row.studentId ≠ studentId)) := by
  constructor
  · intro r hfind hsame
    unfold registerStudent
    rw [hfind]
    simp [hsame]
  · intro r hfind hdiff hone hnew
    obtain ⟨l1, l2, heq, hnomatch, hupd⟩ :=
      find?_updateFirst_decomp (fun row => row.studentId == studentId)
        (fun row => { row with lineId := lineUserId, lineName := lineName, status := "正常", regTime := nowStr })
        st.students r hfind
    have hbeq : (r.lineId == lineUserId) = false := by
      simp [hdiff]
    refine ⟨{ st with students := updateFirst (fun row => row.studentId == studentId) (fun row => { row with lineId := lineUserId, lineName := lineName, status := "正常", regTime := nowStr }) st.students }, ?_, ?_, ?_, ?_⟩
    · unfold registerStudent
      rw [hfind]
      simp [hbeq]
    · simp [updateFirst_length]
    · unfold getStudent
      simp only [hupd]
      rw [List.find?_append]
      have h1 : l1.find? (fun row => row.lineId == lineUserId) = none := by
        rw [List.find?_eq_none]
        intro x hx
        have hxmem : x ∈ st.students := by
          rw [heq]; exact List.mem_append_left _ hx
        have := List.filter_eq_nil_iff.mp hnew x hxmem
        simpa using this
      rw [h1]
      simp
    · intro row hrow
      unfold getStudent at hrow
      simp only [hupd] at hrow
      have hpred := List.find?_some hrow
      have hmem := List.mem_of_find?_eq_some hrow
      have hpr := List.find?_some hfind
      have hl1nil : l1.filter (fun row => row.studentId == studentId) = [] :=
        List.filter_eq_nil_iff.mpr (fun x hx => by simp [hnomatch x hx])
      have hl2nil : l2.filter (fun row => row.studentId == studentId) = [] := by
        have h0 : l1.filter (fun row => row.studentId == studentId) ++
            (r :: l2).filter (fun row => row.studentId == studentId) = [r] := by
          rw [← List.filter_append, ← heq]
          exact hone
        rw [hl1nil, List.nil_append, List.filter_cons, if_pos hpr] at h0
        simpa using h0
      intro hsid
      rcases List.mem_append.mp hmem with h | h
      · exact List.filter_eq_nil_iff.mp hl1nil row h (by simp [hsid])
      · rcases List.mem_cons.mp h with h | h
        · subst h
          simp only [BEq.beq] at hpred
          have : lineUserId = r.lineId := by simpa using hpred
          exact hdiff this.symm
        · exact List.filter_eq_nil_iff.mp hl2nil row h (by simp [hsid])

/-- Two registered students, tokens U1 and U2. -/
def c7St : Store := { wSt with students := [wStu, wStu2] }

/-- Concrete run of C7: 123456 registering again from U1 is refused with
no change; registering 123456 from the new token U9 rebinds in place —
same row count, U9 now resolves to the person, U1 no longer does. -/
theorem c7_register_same_token_fails_new_token_rebinds_witness :
    (registerStudent c7St "U1" "Ming" "123456" "王小明" "801" "T2" =
      ({ success := false, message := "您已經註冊過了！" }, c7St)) ∧
    (∃ st', registerStudent c7St "U9" "NewPhone" "123456" "王小明" "801" "T2" =
        ({ success := true, message := "偵測到您使用新裝置，已為您更新綁定資料。" }, st') ∧
      st'.students.length = c7St.students.length ∧
      getStudent st' "U9" =
        some ({ wStu with lineId := "U9", lineName := "NewPhone", status := "正常", regTime := "T2" }) ∧
      (∀ row, getStudent st' "U1" = some row → row.studentId ≠ "123456")) :=
  ⟨(c7_register_same_token_fails_new_token_rebinds c7St "U1" "Ming" "123456"
      "王小明" "801" "T2").1 wStu rfl rfl,
   (c7_register_same_token_fails_new_token_rebinds c7St "U9" "NewPhone" "123456"
      "王小明" "801" "T2").2 wStu rfl (by decide) rfl rfl⟩

/-! ## C10 -/

/-- C10: when an active (non-已結束) session exists for (course, today),
the sessionId inside a check-in code is ignored — session resolution
returns the active session for every code sessionId, and the direct
handler records against that session's own 活動ID; the code's sessionId
is consulted only as the fallback lookup when no active today-session
exists. -/
theorem c10_code_sessionId_ignored_when_active_session_exists :
    (∀ (st : Store) (courseId sessionId today : String) (s0 : SessionRow),
      getTodaySession st courseId today = some s0 →
      resolveSession st courseId sessionId today = some s0) ∧
    (∀ (st : Store) (courseId sessionId today : String),
      getTodaySession st courseId today = none →
      resolveSession st courseId sessionId today =
        st.sessions.find? (fun r =>
          r.sessionId == sessionId && r.status != "已結束")) ∧
    (∀ (st : Store) (uid text today nowStr : String) (nowMs : Int)
       (stu : StudentRow) (course : CourseRow) (s0 : SessionRow),
      getStudent st uid = some stu →
      2 ≤ (splitOnJS (replaceFirst text "直接簽到:" "") "|").length →
      getCourse st ((splitOnJS (replaceFirst text "直接簽到:" "") "|").getD 0 "") =
        some course →
      getTodaySession st ((splitOnJS (replaceFirst text "直接簽到:" "") "|").getD 0 "")
        today = some s0 →
      checkExistingAttendance st.records s0.sessionId stu.studentId = none →
      ∃ reply st',
        handleDirectCheckin noFaults st uid text today nowMs nowStr =
          .ok (reply, st') ∧
        ∃ rec, st'.records = st.records ++ [rec] ∧
          rec.sessionId = s0.sessionId) := by
  refine ⟨?_, ?_, ?_⟩
  · intro st courseId sessionId today s0 h
    unfold resolveSession
    rw [h]
  · intro st courseId sessionId today h
    unfold resolveSession
    rw [h]
  · intro st uid text today nowStr nowMs stu course s0
      hstu hlen hcourse htoday hnodup
    have hres : resolveSession st
        ((splitOnJS (replaceFirst text "直接簽到:" "") "|").getD 0 "")
        ((splitOnJS (replaceFirst text "直接簽到:" "") "|").getD 1 "") today =
        some s0 := by
      unfold resolveSession
      rw [htoday]
    obtain ⟨st', hmain, hrecs⟩ := handleDirectCheckin_fresh_spec st uid text
      today nowStr nowMs stu course s0 hstu hlen hcourse hres hnodup
    exact ⟨_, st', hmain, _, hrecs, rfl⟩

/-- A session of `wCourse` dated yesterday and still 進行中. -/
def c10OldSession : SessionRow := { wSession with date := "2026-10-11" }

/-- Store whose only session is yesterday's still-open one. -/
def c10StOld : Store := { wSt with sessions := [c10OldSession] }

/-- Concrete run of C10: a stale code `直接簽到:C1|OLDSID` still records
against today's active session S100; and with no active today-session
the fallback lookup by the code's own sessionId is used. -/
theorem c10_code_sessionId_ignored_witness :
    (∃ reply st',
      handleDirectCheckin noFaults wSt "U1" "直接簽到:C1|OLDSID" "2026-10-12"
          ((8 * 60 + 9) * 60000) "T" = .ok (reply, st') ∧
      ∃ rec, st'.records = wSt.records ++ [rec] ∧ rec.sessionId = "S100") ∧
    resolveSession c10StOld "C1" "S100" "2026-10-12" = some c10OldSession :=
  ⟨(c10_code_sessionId_ignored_when_active_session_exists.2.2 wSt "U1"
      "直接簽到:C1|OLDSID" "2026-10-12" "T" ((8 * 60 + 9) * 60000) wStu wCourse
      wSession rfl (by decide) (by decide) (by decide) rfl),
   by
    rw [c10_code_sessionId_ignored_when_active_session_exists.2.1 c10StOld
      "C1" "S100" "2026-10-12" (by decide)]
    decide⟩

/-! ## C3 -/

/-- C3: in the `waitingLocation` step with (freshly re-read) radius
`r > 0`, a location whose distance exceeds `r` increments the retry
counter by one and re-prompts without clearing the state; when the
incremented counter reaches 3 the state is cleared and the
venue-redirect failure message is sent; a location at distance ≤ `r` is
admitted and proceeds to recording. -/
theorem c3_geofence_retry_cap_three (calcDistance : ℚ → ℚ → ℚ → ℚ → ℚ)
    (st : Store) (state : UserState) (uid : String) (lat lon : ℚ)
    (nowMs : Int) (nowStr : String) (stu : StudentRow) (course : CourseRow)
    (r : Int)
    (hstep : state.step = "waitingLocation")
    (hstu : getStudent st uid = some stu)
    (hcourse : getCourse st state.courseId = some course)
    (hrad : effRadius course state = some r)
    (hr : 0 < r) :
    ((calcDistance lat lon (effCoord course.classroomLat state.classroomLat)
        (effCoord course.classroomLon state.classroomLon) > (r : ℚ) ∧
      state.retryCount + 1 < 3) →
      handleLocation noFaults calcDistance st (some state) uid lat lon
          nowMs nowStr =
        .ok (.template "📍 位置驗證失敗，請重試", st,
          some ({ state with retryCount := state.retryCount + 1 }))) ∧
    ((calcDistance lat lon (effCoord course.classroomLat state.classroomLat)
        (effCoord course.classroomLon state.classroomLon) > (r : ℚ) ∧
      3 ≤ state.retryCount + 1) →
      handleLocation noFaults calcDistance st (some state) uid lat lon
          nowMs nowStr =
        .ok (.text (geofenceFailMsg (state.retryCount + 1)
          (jsRound (calcDistance lat lon
            (effCoord course.classroomLat state.classroomLat)
            (effCoord course.classroomLon state.classroomLon))) r), st, none)) ∧
    ((calcDistance lat lon (effCoord course.classroomLat state.classroomLat)
        (effCoord course.classroomLon state.classroomLon) ≤ (r : ℚ)) →
      checkExistingAttendance st.records state.sessionId stu.studentId = none →
      ∃ reply st',
        handleLocation noFaults calcDistance st (some state) uid lat lon
            nowMs nowStr = .ok (reply, st', none) ∧
        ∃ rec, st'.records = st.records ++ [rec] ∧
          rec.sessionId = state.sessionId ∧ rec.studentId = stu.studentId) := by
  refine ⟨?_, ?_, ?_⟩
  · rintro ⟨hgt, hlt⟩
    have hnot3 : ¬(3 ≤ state.retryCount + 1) := Nat.not_le.mpr hlt
    simp only [handleLocation, hstep, hstu, hcourse, hrad, hgt,
      bne_self_eq_false, Bool.false_eq_true, if_false, decide_eq_true_eq,
      if_true, ge_iff_le, hnot3]
  · rintro ⟨hgt, hge⟩
    simp only [handleLocation, hstep, hstu, hcourse, hrad, hgt,
      bne_self_eq_false, Bool.false_eq_true, if_false, decide_eq_true_eq,
      if_true, ge_iff_le, hge]
    simp [Option.getD]
  · intro hdist hnodup
    obtain ⟨st', hmain, hrecs⟩ := handleLocation_admitted_spec calcDistance st
      state uid lat lon nowMs nowStr stu course r hstep hstu hcourse hrad
      hdist hnodup
    exact ⟨_, st', hmain, _, hrecs, rfl, rfl⟩

/-- The `waitingLocation` conversation state `handleGPSCheckin` sets for
`wCourse` (radius 50, classroom (25, 121), threshold 10, start 08:00). -/
def c3State : UserState :=
  { step := "waitingLocation", courseId := "C1", sessionId := "S100",
    courseName := "數學", classroomLat := 25, classroomLon := 121,
    checkRadius := 50, lateMinutes := 10, startTime := "08:00",
    retryCount := 0 }

/-- A distance evaluator reporting 51 m everywhere. -/
def c3Dist51 : ℚ → ℚ → ℚ → ℚ → ℚ := fun _ _ _ _ => 51

/-- A distance evaluator reporting 49 m everywhere. -/
def c3Dist49 : ℚ → ℚ → ℚ → ℚ → ℚ := fun _ _ _ _ => 49

/-- Concrete run of C3 with radius 50: a 51 m location takes the retry
counter from 0 to 1 keeping the state; the third rejection (counter 2)
clears the state with the venue-redirect message; a 49 m location is
admitted and appends the (S100, 123456) record. -/
theorem c3_geofence_retry_cap_three_witness :
    (handleLocation noFaults c3Dist51 wSt (some c3State) "U1" 25 121
        ((8 * 60 + 9) * 60000) "T" =
      .ok (.template "📍 位置驗證失敗，請重試", wSt,
        some ({ c3State with retryCount := 1 }))) ∧
    (handleLocation noFaults c3Dist51 wSt
        (some ({ c3State with retryCount := 2 })) "U1" 25 121
        ((8 * 60 + 9) * 60000) "T" =
      .ok (.text (geofenceFailMsg 3 (jsRound 51) 50), wSt, none)) ∧
    (∃ reply st',
      handleLocation noFaults c3Dist49 wSt (some c3State) "U1" 25 121
          ((8 * 60 + 9) * 60000) "T" = .ok (reply, st', none) ∧
      ∃ rec, st'.records = wSt.records ++ [rec] ∧
        rec.sessionId = "S100" ∧ rec.studentId = "123456") :=
  ⟨(c3_geofence_retry_cap_three c3Dist51 wSt c3State "U1" 25 121
      ((8 * 60 + 9) * 60000) "T" wStu wCourse 50 rfl rfl rfl (by decide)
      (by decide)).1 ⟨by norm_num [c3Dist51], by decide⟩,
   (c3_geofence_retry_cap_three c3Dist51 wSt ({ c3State with retryCount := 2 })
      "U1" 25 121 ((8 * 60 + 9) * 60000) "T" wStu wCourse 50 rfl rfl rfl
      (by decide) (by decide)).2.1 ⟨by norm_num [c3Dist51], by decide⟩,
   (c3_geofence_retry_cap_three c3Dist49 wSt c3State "U1" 25 121
      ((8 * 60 + 9) * 60000) "T" wStu wCourse 50 rfl rfl rfl (by decide)
      (by decide)).2.2 (by norm_num [c3Dist49]) rfl⟩

/-! ## C6 -/

theorem fireReminder_reminders (fm : FaultModel) (st : Store) (c : CourseRow)
    (today nowStr sid : String) :
    (fireReminder fm st c today nowStr sid).reminders =
      st.reminders ++
        [{ courseId := c.courseId, date := today, typ := "上課提醒",
           sentAt := nowStr }] := rfl

theorem reminderStep_reminders_mono (fm : FaultModel)
    (snap : List ReminderRow) (m cur : Int) (today nowStr sid : String)
    (st : Store) (c : CourseRow) :
    ∃ tail, (reminderStep fm snap m cur today nowStr sid st c).reminders =
      st.reminders ++ tail := by
  unfold reminderStep
  split
  · split
    · exact ⟨[], by simp⟩
    · exact ⟨_, fireReminder_reminders fm st c today nowStr sid⟩
  · exact ⟨[], by simp⟩

theorem reminderStep_courses (fm : FaultModel) (snap : List ReminderRow)
    (m cur : Int) (today nowStr sid : String) (st : Store) (c : CourseRow) :
    (reminderStep fm snap m cur today nowStr sid st c).courses = st.courses := by
  unfold reminderStep
  repeat' first
  | rfl
  | split

theorem reminderStep_settings (fm : FaultModel) (snap : List ReminderRow)
    (m cur : Int) (today nowStr sid : String) (st : Store) (c : CourseRow) :
    (reminderStep fm snap m cur today nowStr sid st c).settings = st.settings := by
  unfold reminderStep
  repeat' first
  | rfl
  | split

theorem reminderSent_append_left (l tail : List ReminderRow)
    (cid today : String) (h : reminderSent l cid today = true) :
    reminderSent (l ++ tail) cid today = true := by
  simp only [reminderSent, List.any_append, Bool.or_eq_true]
  exact Or.inl h

theorem reminderFold_courses (fm : FaultModel) (snap : List ReminderRow)
    (m cur : Int) (today nowStr : String) (mkSid : Nat → String) :
    ∀ (l : List (Nat × CourseRow)) (st : Store),
      (l.foldl (fun st p =>
        reminderStep fm snap m cur today nowStr (mkSid p.1) st p.2) st).courses =
        st.courses := by
  intro l
  induction l with
  | nil => intro st; rfl
  | cons p tl ih =>
    intro st
    simp only [List.foldl_cons]
    rw [ih, reminderStep_courses]

theorem reminderFold_settings (fm : FaultModel) (snap : List ReminderRow)
    (m cur : Int) (today nowStr : String) (mkSid : Nat → String) :
    ∀ (l : List (Nat × CourseRow)) (st : Store),
      (l.foldl (fun st p =>
        reminderStep fm snap m cur today nowStr (mkSid p.1) st p.2) st).settings =
        st.settings := by
  intro l
  induction l with
  | nil => intro st; rfl
  | cons p tl ih =>
    intro st
    simp only [List.foldl_cons]
    rw [ih, reminderStep_settings]

theorem reminderFold_reminders_mono (fm : FaultModel) (snap : List ReminderRow)
    (m cur : Int) (today nowStr : String) (mkSid : Nat → String) :
    ∀ (l : List (Nat × CourseRow)) (st : Store),
      ∃ tail, (l.foldl (fun st p =>
        reminderStep fm snap m cur today nowStr (mkSid p.1) st p.2) st).reminders =
        st.reminders ++ tail := by
  intro l
  induction l with
  | nil => intro st; exact ⟨[], by simp⟩
  | cons p tl ih =>
    intro st
    simp only [List.foldl_cons]
    obtain ⟨t1, h1⟩ := reminderStep_reminders_mono fm snap m cur today nowStr
      (mkSid p.1) st p.2
    obtain ⟨t2, h2⟩ := ih (reminderStep fm snap m cur today nowStr (mkSid p.1) st p.2)
    exact ⟨t1 ++ t2, by rw [h2, h1, List.append_assoc]⟩

/-- After the fold, every in-window course of the list has a ledger
entry, provided every entry of the snapshot is already present in the
accumulator. -/
theorem reminderFold_sent (fm : FaultModel) (snap : List ReminderRow)
    (m cur : Int) (today nowStr : String) (mkSid : Nat → String) :
    ∀ (l : List (Nat × CourseRow)) (st : Store),
      (∀ cid, reminderSent snap cid today = true →
        reminderSent st.reminders cid today = true) →
      ∀ p ∈ l, windowOpen p.2 m cur = true →
        reminderSent ((l.foldl (fun st p =>
          reminderStep fm snap m cur today nowStr (mkSid p.1) st p.2) st).reminders)
          p.2.courseId today = true := by
  intro l
  induction l with
  | nil => intro st _ p hp; simp at hp
  | cons q tl ih =>
    intro st hsnapin p hp hwin
    simp only [List.foldl_cons]
    set st' := reminderStep fm snap m cur today nowStr (mkSid q.1) st q.2 with hst'
    obtain ⟨t1, hmono1⟩ := reminderStep_reminders_mono fm snap m cur today nowStr
      (mkSid q.1) st q.2
    have hsnapin' : ∀ cid, reminderSent snap cid today = true →
        reminderSent st'.reminders cid today = true := by
      intro cid hc
      rw [← hst'] at hmono1
      rw [hmono1]
      exact reminderSent_append_left _ _ _ _ (hsnapin cid hc)
    rcases List.mem_cons.mp hp with hpq | hptl
    · subst hpq
      have hsent' : reminderSent st'.reminders p.2.courseId today = true := by
        cases hs : reminderSent snap p.2.courseId today with
        | true =>
          exact hsnapin' p.2.courseId hs
        | false =>
          rw [hst']
          unfold reminderStep
          rw [hwin, if_pos rfl, hs]
          simp only [Bool.false_eq_true, if_false, fireReminder_reminders]
          simp [reminderSent, List.any_append]
      obtain ⟨t2, hmono2⟩ := reminderFold_reminders_mono fm snap m cur today
        nowStr mkSid tl st'
      rw [hmono2]
      exact reminderSent_append_left _ _ _ _ hsent'
    · exact ih st' hsnapin' p hptl hwin

theorem foldl_id_of_step_id (step : β → α → β) :
    ∀ (l : List α) (st : β), (∀ p ∈ l, ∀ s, step s p = s) →
      l.foldl step st = st := by
  intro l
  induction l with
  | nil => intro st _; rfl
  | cons q tl ih =>
    intro st h
    simp only [List.foldl_cons]
    rw [h q (by simp) st]
    exact ih st (fun p hp s => h p (List.mem_cons_of_mem q hp) s)

/-- When 上課提醒 is enabled and there are courses today, the sweep is
the fold of `reminderStep` over today's courses with the ledger
snapshot taken at entry. -/
theorem autoClassReminder_eq_fold (fm : FaultModel) (st : Store)
    (dow cur : Int) (today nowStr : String) (mkSid : Nat → String)
    (hb : (reminderSettings st).1 = true)
    (he : ¬(todayCoursesOf st dow).isEmpty = true) :
    autoClassReminder fm st dow cur today nowStr mkSid =
      (todayCoursesOf st dow).enum.foldl (fun s p =>
        reminderStep fm st.reminders (reminderSettings st).2 cur today nowStr
          (mkSid p.1) s p.2) st := by
  unfold autoClassReminder
  dsimp only
  rw [hb]
  simp only [Bool.not_true, Bool.false_eq_true, if_false]
  rw [if_neg he]

/-- A sweep in which every in-window course of today already has a
ledger entry changes nothing. -/
theorem autoClassReminder_skip (fm : FaultModel) (st : Store)
    (dow cur : Int) (today nowStr : String) (mkSid : Nat → String)
    (h : ∀ p ∈ (todayCoursesOf st dow).enum,
      windowOpen p.2 (reminderSettings st).2 cur = true →
      reminderSent st.reminders p.2.courseId today = true) :
    autoClassReminder fm st dow cur today nowStr mkSid = st := by
  unfold autoClassReminder
  dsimp only
  split
  · rfl
  · split
    · rfl
    · apply foldl_id_of_step_id
      intro p hp s
      unfold reminderStep
      cases hw : windowOpen p.2 (reminderSettings st).2 cur with
      | false => simp [hw]
      | true => simp [hw, h p hp hw]

theorem autoClassReminder_settings (fm : FaultModel) (st : Store)
    (dow cur : Int) (today nowStr : String) (mkSid : Nat → String) :
    (autoClassReminder fm st dow cur today nowStr mkSid).settings =
      st.settings := by
  unfold autoClassReminder
  dsimp only
  split
  · rfl
  · split
    · rfl
    · exact reminderFold_settings fm st.reminders (reminderSettings st).2 cur
        today nowStr mkSid (todayCoursesOf st dow).enum st

theorem autoClassReminder_courses (fm : FaultModel) (st : Store)
    (dow cur : Int) (today nowStr : String) (mkSid : Nat → String) :
    (autoClassReminder fm st dow cur today nowStr mkSid).courses =
      st.courses := by
  unfold autoClassReminder
  dsimp only
  split
  · rfl
  · split
    · rfl
    · exact reminderFold_courses fm st.reminders (reminderSettings st).2 cur
        today nowStr mkSid (todayCoursesOf st dow).enum st

/-- C6: with reminders enabled, a single in-window course today and no
dedup-ledger entry for (course, today, 上課提醒), one sweep creates
exactly one 簽到活動 row, pushes one batch of prompts to the enrolled
LINE-linked students, and then appends the one ledger entry; and a
second sequential sweep with the same clock (indeed any repetition) is
the identity — two sequential invocations within the same minute never
create two sessions or two batches. -/
theorem c6_reminder_sweep_dedup :
    (∀ (fm : FaultModel) (st : Store) (dow cur : Int)
       (today nowStr : String) (mkSid : Nat → String) (m : Int) (c : CourseRow),
      reminderSettings st = (true, m) →
      todayCoursesOf st dow = [c] →
      windowOpen c m cur = true →
      reminderSent st.reminders c.courseId today = false →
      autoClassReminder fm st dow cur today nowStr mkSid =
        { st with
          sessions := st.sessions ++
            [{ sessionId := mkSid 0, courseId := c.courseId, date := today,
               startTime := (splitOnJS c.courseTime "-").getD 0 "",
               endTime := (splitOnJS c.courseTime "-").getD 1 "",
               qr := "直接簽到:" ++ c.courseId ++ "|" ++ mkSid 0,
               status := "進行中" }],
          outbox := st.outbox ++
            (st.students.filter (fun s =>
              (splitClasses s.classes).contains c.classCode &&
                s.lineId != "")).filterMap (fun s =>
              if fm.pushFails s.lineId then none
              else some (s.lineId, "📢 上課提醒 - " ++ c.subject)),
          reminders := st.reminders ++
            [{ courseId := c.courseId, date := today, typ := "上課提醒",
               sentAt := nowStr }] }) ∧
    (∀ (fm : FaultModel) (st : Store) (dow cur : Int)
       (today nowStr nowStr2 : String) (mkSid mkSid2 : Nat → String),
      autoClassReminder fm (autoClassReminder fm st dow cur today nowStr mkSid)
          dow cur today nowStr2 mkSid2 =
        autoClassReminder fm st dow cur today nowStr mkSid) := by
  constructor
  · intro fm st dow cur today nowStr mkSid m c hset hc hwin hnotsent
    have hb : (reminderSettings st).1 = true := by rw [hset]
    have hm : (reminderSettings st).2 = m := by rw [hset]
    have he : ¬(todayCoursesOf st dow).isEmpty = true := by
      rw [hc]; simp
    rw [autoClassReminder_eq_fold fm st dow cur today nowStr mkSid hb he, hc, hm]
    have henum : ([c] : List CourseRow).enum = [(0, c)] := rfl
    rw [henum]
    simp only [List.foldl_cons, List.foldl_nil]
    unfold reminderStep
    rw [hwin, if_pos rfl, hnotsent]
    simp only [Bool.false_eq_true, if_false]
    rfl
  · intro fm st dow cur today nowStr nowStr2 mkSid mkSid2
    by_cases hb : (reminderSettings st).1 = true
    · by_cases he : (todayCoursesOf st dow).isEmpty = true
      · have h1 : ∀ ns mk, autoClassReminder fm st dow cur today ns mk = st := by
          intro ns mk
          unfold autoClassReminder
          dsimp only
          rw [hb]
          simp only [Bool.not_true, Bool.false_eq_true, if_false]
          rw [if_pos he]
        rw [h1 nowStr mkSid]
        exact h1 nowStr2 mkSid2
      · set st1 := autoClassReminder fm st dow cur today nowStr mkSid with hst1
        have hsetEq : st1.settings = st.settings :=
          autoClassReminder_settings fm st dow cur today nowStr mkSid
        have hcoursesEq : st1.courses = st.courses :=
          autoClassReminder_courses fm st dow cur today nowStr mkSid
        have hrs : reminderSettings st1 = reminderSettings st := by
          unfold reminderSettings
          rw [hsetEq]
        have htc : todayCoursesOf st1 dow = todayCoursesOf st dow := by
          unfold todayCoursesOf
          rw [hcoursesEq]
        have hsentAfter : ∀ p ∈ (todayCoursesOf st dow).enum,
            windowOpen p.2 (reminderSettings st).2 cur = true →
            reminderSent st1.reminders p.2.courseId today = true := by
          intro p hp hw
          rw [hst1, autoClassReminder_eq_fold fm st dow cur today nowStr mkSid hb he]
          exact reminderFold_sent fm st.reminders (reminderSettings st).2 cur
            today nowStr mkSid (todayCoursesOf st dow).enum st
            (fun cid h => h) p hp hw
        apply autoClassReminder_skip
        intro p hp hw
        rw [htc] at hp
        rw [hrs] at hw
        exact hsentAfter p hp hw
    · have hb' : (reminderSettings st).1 = false := by
        cases h : (reminderSettings st).1 with
        | true => exact absurd h hb
        | false => rfl
      have h1 : ∀ ns mk, autoClassReminder fm st dow cur today ns mk = st := by
        intro ns mk
        unfold autoClassReminder
        dsimp only
        rw [hb']
        simp
      rw [h1 nowStr mkSid]
      exact h1 nowStr2 mkSid2

/-- Store for the C6 witness: two enrolled LINE-linked students, the
course starting 08:00 on weekday 1, clock 07:31 with the default
30-minute lead — the window is open and the ledger is empty. -/
def c6St : Store := { wSt with students := [wStu, wStu2], sessions := [] }

/-- Concrete run of C6: the first sweep creates exactly one session,
one two-prompt batch and one ledger entry, and a second sweep in the
same minute changes nothing. -/
theorem c6_reminder_sweep_dedup_witness :
    (autoClassReminder noFaults c6St 1 (7 * 60 + 31) "2026-10-12" "T"
        (fun i => "SID" ++ toString i) =
      { c6St with
        sessions :=
          [{ sessionId := "SID0", courseId := "C1", date := "2026-10-12",
             startTime := "08:00", endTime := "09:00",
             qr := "直接簽到:C1|SID0", status := "進行中" }],
        outbox := [("U1", "📢 上課提醒 - 數學"), ("U2", "📢 上課提醒 - 數學")],
        reminders :=
          [{ courseId := "C1", date := "2026-10-12", typ := "上課提醒",
             sentAt := "T" }] }) ∧
    (autoClassReminder noFaults
        (autoClassReminder noFaults c6St 1 (7 * 60 + 31) "2026-10-12" "T"
          (fun i => "SID" ++ toString i)) 1 (7 * 60 + 31) "2026-10-12" "T2"
        (fun i => "SID2" ++ toString i) =
      autoClassReminder noFaults c6St 1 (7 * 60 + 31) "2026-10-12" "T"
        (fun i => "SID" ++ toString i)) := by
  constructor
  · rw [c6_reminder_sweep_dedup.1 noFaults c6St 1 (7 * 60 + 31) "2026-10-12" "T"
      (fun i => "SID" ++ toString i) 30 wCourse rfl (by decide) (by decide) rfl]
    decide
  · exact c6_reminder_sweep_dedup.2 noFaults c6St 1 (7 * 60 + 31) "2026-10-12"
      "T" "T2" (fun i => "SID" ++ toString i) (fun i => "SID2" ++ toString i)

/-! ## C8 / C9 groundwork

The absence sweep only rewrites session statuses, appends 簽到紀錄 and
出席統計 rows and pushes notifications; the lemmas below track which
sheets each layer can touch and how records grow. -/

theorem updateStatistics_sessions (st : Store) (pid status nowStr : String) :
    (updateStatistics st pid status nowStr).sessions = st.sessions := rfl

theorem updateStatistics_courses (st : Store) (pid status nowStr : String) :
    (updateStatistics st pid status nowStr).courses = st.courses := rfl

theorem updateStatistics_students (st : Store) (pid status nowStr : String) :
    (updateStatistics st pid status nowStr).students = st.students := rfl

theorem sendCheckinNotification_sessions (fm : FaultModel) (st : Store)
    (sid pid status : String) (lm : Int) :
    (sendCheckinNotification fm st sid pid status lm).sessions = st.sessions := by
  unfold sendCheckinNotification
  repeat' first
  | rfl
  | split

theorem sendCheckinNotification_courses (fm : FaultModel) (st : Store)
    (sid pid status : String) (lm : Int) :
    (sendCheckinNotification fm st sid pid status lm).courses = st.courses := by
  unfold sendCheckinNotification
  repeat' first
  | rfl
  | split

theorem sendCheckinNotification_students (fm : FaultModel) (st : Store)
    (sid pid status : String) (lm : Int) :
    (sendCheckinNotification fm st sid pid status lm).students = st.students := by
  unfold sendCheckinNotification
  repeat' first
  | rfl
  | split

/-- A successful `recordAttendance` leaves sessions, courses and
students untouched, only ever appends to records, and any appended
record carries the given session and person identifiers; a thrown
`recordAttendance` returns the input store unchanged. -/
theorem recordAttendance_shape (fm : FaultModel) (st : Store)
    (sid pid status : String) (lm : Int) (glat glon : String) (sn : Bool)
    (nowStr : String) :
    (∀ res st', recordAttendance fm st sid pid status lm glat glon sn nowStr =
        .ok (res, st') →
      st'.sessions = st.sessions ∧ st'.courses = st.courses ∧
      st'.students = st.students ∧
      (∀ r ∈ st'.records, r ∈ st.records ∨
        (r.sessionId = sid ∧ r.studentId = pid)) ∧
      (∀ r ∈ st.records, r ∈ st'.records)) ∧
    (∀ st_e, recordAttendance fm st sid pid status lm glat glon sn nowStr =
        .error st_e → st_e = st) := by
  constructor
  · intro res st' h
    unfold recordAttendance at h
    cases hfind : checkExistingAttendance st.records sid pid with
    | some ex =>
      rw [hfind] at h
      injection h with h'
      injection h' with _ h2
      rw [← h2]
      exact ⟨rfl, rfl, rfl, fun r hr => Or.inl hr, fun r hr => hr⟩
    | none =>
      rw [hfind] at h
      cases haf : fm.addRowFails sid pid with
      | true => rw [haf] at h; simp at h
      | false =>
        simp only [haf, Bool.false_eq_true, if_false] at h
        injection h with h'
        injection h' with _ h2
        have hsplit :
            st'.records = st.records ++
              [{ sessionId := sid, studentId := pid, time := nowStr,
                 status := status, lateMin := lm, gpsLat := glat,
                 gpsLon := glon, note := "" }] ∧
            st'.sessions = st.sessions ∧ st'.courses = st.courses ∧
            st'.students = st.students := by
          rw [← h2]
          cases sn <;>
            simp [updateStatistics_records, sendCheckinNotification_records,
              updateStatistics_sessions, sendCheckinNotification_sessions,
              updateStatistics_courses, sendCheckinNotification_courses,
              updateStatistics_students, sendCheckinNotification_students]
        obtain ⟨hrec, hses, hcou, hstu⟩ := hsplit
        refine ⟨hses, hcou, hstu, ?_, ?_⟩
        · intro r hr
          rw [hrec] at hr
          rcases List.mem_append.mp hr with h | h
          · exact Or.inl h
          · simp only [List.mem_singleton] at h
            subst h
            exact Or.inr ⟨rfl, rfl⟩
        · intro r hr
          rw [hrec]
          exact List.mem_append_left _ hr
  · intro st_e h
    unfold recordAttendance at h
    cases hfind : checkExistingAttendance st.records sid pid with
    | some ex => rw [hfind] at h; simp at h
    | none =>
      rw [hfind] at h
      cases haf : fm.addRowFails sid pid with
      | true =>
        rw [haf] at h
        simp only [if_true] at h
        injection h with h'
        exact h'.symm
      | false =>
        simp only [haf, Bool.false_eq_true, if_false] at h
        simp at h

/-- With a non-failing append, `recordAttendance` succeeds and the pair
is present in the resulting records (freshly appended, or the existing
duplicate row). -/
theorem recordAttendance_pair_present (fm : FaultModel) (st : Store)
    (sid pid status : String) (lm : Int) (glat glon : String) (sn : Bool)
    (nowStr : String) (hnf : fm.addRowFails sid pid = false) :
    ∃ res st', recordAttendance fm st sid pid status lm glat glon sn nowStr =
        .ok (res, st') ∧
      ∃ r ∈ st'.records, r.sessionId = sid ∧ r.studentId = pid := by
  unfold recordAttendance
  cases hfind : checkExistingAttendance st.records sid pid with
  | some ex =>
    have hmem := List.mem_of_find?_eq_some hfind
    have hpred := List.find?_some hfind
    simp only [Bool.and_eq_true, beq_iff_eq] at hpred
    exact ⟨_, st, rfl, ex, hmem, hpred.1, hpred.2⟩
  | none =>
    simp only [hnf, Bool.false_eq_true, if_false]
    refine ⟨_, _, rfl, ?_⟩
    have hnewmem :
        ({ sessionId := sid, studentId := pid, time := nowStr, status := status,
           lateMin := lm, gpsLat := glat, gpsLon := glon, note := "" } : AttRow) ∈
          st.records ++
            [{ sessionId := sid, studentId := pid, time := nowStr,
               status := status, lateMin := lm, gpsLat := glat, gpsLon := glon,
               note := "" }] :=
      List.mem_append_right _ (List.mem_singleton.mpr rfl)
    refine ⟨{ sessionId := sid, studentId := pid, time := nowStr, status := status, lateMin := lm, gpsLat := glat, gpsLon := glon, note := "" }, ?_, rfl, rfl⟩
    cases sn <;>
      simp only [if_true, Bool.false_eq_true, if_false,
        updateStatistics_records, sendCheckinNotification_records] <;>
      exact hnewmem

/-- One step of the per-person absence loop leaves sessions, courses and
students untouched, only appends records (all tagged with the session),
and an uncaught throw surfaces the input store unchanged. -/
theorem absStudentStep_shape (fm : FaultModel) (sid : String) (course : CourseRow)
    (sdate : String) (snap : List AttRow) (nowStr : String) (st : Store)
    (stu : StudentRow) :
    (∀ st', absStudentStep fm sid course sdate snap nowStr st stu = .ok st' →
      st'.sessions = st.sessions ∧ st'.courses = st.courses ∧
      st'.students = st.students ∧
      (∀ r ∈ st'.records, r ∈ st.records ∨ r.sessionId = sid) ∧
      (∀ r ∈ st.records, r ∈ st'.records)) ∧
    (∀ st_e, absStudentStep fm sid course sdate snap nowStr st stu = .error st_e →
      st_e = st) := by
  constructor
  · intro st' h
    unfold absStudentStep at h
    cases hhas : snap.any (fun r =>
        r.sessionId == sid && r.studentId == stu.studentId) with
    | true =>
      simp only [hhas, if_true] at h
      injection h with h'
      rw [← h']
      exact ⟨rfl, rfl, rfl, fun r hr => Or.inl hr, fun r hr => hr⟩
    | false =>
      simp only [hhas, Bool.false_eq_true, if_false] at h
      cases hra : recordAttendance fm st sid stu.studentId "缺席" 0 "" "" true
          nowStr with
      | error st_e => rw [hra] at h; simp at h
      | ok p =>
        obtain ⟨res, st1⟩ := p
        rw [hra] at h
        obtain ⟨hses, hcou, hstu, htag, hsub⟩ :=
          (recordAttendance_shape fm st sid stu.studentId "缺席" 0 "" "" true
            nowStr).1 res st1 hra
        have hfinal : st' = st1 ∨ st' = { st1 with outbox := st1.outbox ++
            [(stu.lineId, absenceNotifyMsg course.subject sdate)] } := by
          dsimp only at h
          split at h
          · split at h
            · injection h with h'
              exact Or.inl h'.symm
            · injection h with h'
              exact Or.inr h'.symm
          · injection h with h'
            exact Or.inl h'.symm
        have hpick : st'.sessions = st1.sessions ∧ st'.courses = st1.courses ∧
            st'.students = st1.students ∧ st'.records = st1.records := by
          rcases hfinal with h' | h' <;> rw [h'] <;> exact ⟨rfl, rfl, rfl, rfl⟩
        obtain ⟨p1, p2, p3, p4⟩ := hpick
        refine ⟨p1.trans hses, p2.trans hcou, p3.trans hstu, ?_, ?_⟩
        · intro r hr
          rw [p4] at hr
          rcases htag r hr with h' | h'
          · exact Or.inl h'
          · exact Or.inr h'.1
        · intro r hr
          rw [p4]
          exact hsub r hr
  · intro st_e h
    unfold absStudentStep at h
    cases hhas : snap.any (fun r =>
        r.sessionId == sid && r.studentId == stu.studentId) with
    | true =>
      simp only [hhas, if_true] at h
      simp at h
    | false =>
      simp only [hhas, Bool.false_eq_true, if_false] at h
      cases hra : recordAttendance fm st sid stu.studentId "缺席" 0 "" "" true
          nowStr with
      | error st_e' =>
        rw [hra] at h
        dsimp only at h
        injection h with h'
        rw [← h']
        exact (recordAttendance_shape fm st sid stu.studentId "缺席" 0 "" "" true
          nowStr).2 st_e' hra
      | ok p =>
        obtain ⟨res, st1⟩ := p
        rw [hra] at h
        dsimp only at h
        split at h
        · split at h <;> simp at h
        · simp at h

/-- With a non-failing append, the per-person step succeeds and the
resulting records contain the pair — whether the snapshot already had
it, the live check found a duplicate, or the absence was appended. -/
theorem absStudentStep_covers (fm : FaultModel) (sid : String)
    (course : CourseRow) (sdate : String) (snap : List AttRow) (nowStr : String)
    (st : Store) (stu : StudentRow)
    (hnf : fm.addRowFails sid stu.studentId = false)
    (hsub : ∀ r ∈ snap, r ∈ st.records) :
    ∃ st', absStudentStep fm sid course sdate snap nowStr st stu = .ok st' ∧
      ∃ r ∈ st'.records, r.sessionId = sid ∧ r.studentId = stu.studentId := by
  unfold absStudentStep
  cases hhas : snap.any (fun r => r.sessionId == sid && r.studentId == stu.studentId) with
  | true =>
    simp only [hhas, if_true]
    obtain ⟨r, hrmem, hrpred⟩ := List.any_eq_true.mp hhas
    simp only [Bool.and_eq_true, beq_iff_eq] at hrpred
    exact ⟨st, rfl, r, hsub r hrmem, hrpred.1, hrpred.2⟩
  | false =>
    simp only [hhas, Bool.false_eq_true, if_false]
    obtain ⟨res, st1, hra, r, hrmem, hr1, hr2⟩ :=
      recordAttendance_pair_present fm st sid stu.studentId "缺席" 0 "" "" true
        nowStr hnf
    rw [hra]
    dsimp only
    split
    · split
      · exact ⟨st1, rfl, r, hrmem, hr1, hr2⟩
      · exact ⟨_, rfl, r, hrmem, hr1, hr2⟩
    · exact ⟨st1, rfl, r, hrmem, hr1, hr2⟩

/-- The whole per-person loop (possibly aborted by a throw) leaves
sessions, courses and students untouched and only appends
session-tagged records. -/
theorem absStudentsFold_shape (fm : FaultModel) (sid : String)
    (course : CourseRow) (sdate : String) (snap : List AttRow) (nowStr : String) :
    ∀ (l : List StudentRow) (st : Store),
      ∃ out,
        (foldExcept (absStudentStep fm sid course sdate snap nowStr) st l =
            .ok out ∨
         foldExcept (absStudentStep fm sid course sdate snap nowStr) st l =
            .error out) ∧
        out.sessions = st.sessions ∧ out.courses = st.courses ∧
        out.students = st.students ∧
        (∀ r ∈ out.records, r ∈ st.records ∨ r.sessionId = sid) ∧
        (∀ r ∈ st.records, r ∈ out.records) := by
  intro l
  induction l with
  | nil =>
    intro st
    exact ⟨st, Or.inl rfl, rfl, rfl, rfl, fun r hr => Or.inl hr, fun r hr => hr⟩
  | cons stu tl ih =>
    intro st
    cases hstep : absStudentStep fm sid course sdate snap nowStr st stu with
    | error st_e =>
      have he : st_e = st :=
        (absStudentStep_shape fm sid course sdate snap nowStr st stu).2 st_e hstep
      refine ⟨st_e, Or.inr ?_, ?_⟩
      · unfold foldExcept
        rw [hstep]
      · rw [he]
        exact ⟨rfl, rfl, rfl, fun r hr => Or.inl hr, fun r hr => hr⟩
    | ok st1 =>
      obtain ⟨hses, hcou, hstu, htag, hsub⟩ :=
        (absStudentStep_shape fm sid course sdate snap nowStr st stu).1 st1 hstep
      obtain ⟨out, hout, oses, ocou, ostu, otag, osub⟩ := ih st1
      refine ⟨out, ?_, oses.trans hses, ocou.trans hcou, ostu.trans hstu, ?_, ?_⟩
      · unfold foldExcept
        rw [hstep]
        exact hout
      · intro r hr
        rcases otag r hr with h' | h'
        · exact htag r h'
        · exact Or.inr h'
      · intro r hr
        exact osub r (hsub r hr)

/-- With no append faults, the per-person loop completes and every
student of the list ends up with a record for the session. -/
theorem absStudentsFold_covers (fm : FaultModel) (sid : String)
    (course : CourseRow) (sdate : String) (snap : List AttRow) (nowStr : String)
    (hnf : ∀ pid, fm.addRowFails sid pid = false) :
    ∀ (l : List StudentRow) (st : Store),
      (∀ r ∈ snap, r ∈ st.records) →
      ∃ out,
        foldExcept (absStudentStep fm sid course sdate snap nowStr) st l =
          .ok out ∧
        (∀ stu ∈ l, ∃ r ∈ out.records,
          r.sessionId = sid ∧ r.studentId = stu.studentId) := by
  intro l
  induction l with
  | nil =>
    intro st _
    exact ⟨st, rfl, fun stu hstu => absurd hstu (List.not_mem_nil stu)⟩
  | cons stu tl ih =>
    intro st hsnapsub
    obtain ⟨st1, hstep, r0, hr0mem, hr01, hr02⟩ :=
      absStudentStep_covers fm sid course sdate snap nowStr st stu
        (hnf stu.studentId) hsnapsub
    obtain ⟨_, _, _, _, hsub1⟩ :=
      (absStudentStep_shape fm sid course sdate snap nowStr st stu).1 st1 hstep
    obtain ⟨out, hfold, hcov⟩ := ih st1 (fun r hr => hsub1 r (hsnapsub r hr))
    refine ⟨out, ?_, ?_⟩
    · unfold foldExcept
      rw [hstep]
      exact hfold
    · intro s hs
      rcases List.mem_cons.mp hs with h' | h'
      · subst h'
        obtain ⟨out', hout', hses', hcou', hstu', htag', hsubout'⟩ :=
          absStudentsFold_shape fm sid course sdate snap nowStr tl st1
        rcases hout' with hok | herr
        · rw [hfold] at hok
          injection hok with h''
          rw [h'']
          exact ⟨r0, hsubout' r0 hr0mem, hr01, hr02⟩
        · rw [hfold] at herr
          simp at herr
      · exact hcov s h'

/-- A session that is not 進行中, or whose end time has not passed, is
skipped untouched by `processSession`. -/
theorem processSession_skip (fm : FaultModel) (st : Store) (idx : Nat)
    (s : SessionRow) (nowMs : Int) (nowStr : String)
    (h : s.status ≠ "進行中" ∨ absExpired s nowMs = false) :
    processSession fm st idx s nowMs nowStr = .ok st := by
  unfold processSession
  rcases h with h | h
  · have hb : (s.status != "進行中") = true := bne_iff_ne.mpr h
    rw [hb, if_pos rfl]
  · cases hb : (s.status != "進行中") with
    | true => rw [if_pos rfl]
    | false =>
      simp only [Bool.false_eq_true, if_false, h, Bool.not_false]
      rfl

/-- A successful `processSession` either skipped the session or — when
it was 進行中 and expired — moved it to 已結束 in place, leaving
courses and students alone and appending only session-tagged records. -/
theorem processSession_ok (fm : FaultModel) (st : Store) (idx : Nat)
    (s : SessionRow) (nowMs : Int) (nowStr : String) (st' : Store)
    (h : processSession fm st idx s nowMs nowStr = .ok st') :
    (st' = st ∧ (s.status ≠ "進行中" ∨ absExpired s nowMs = false)) ∨
    (s.status = "進行中" ∧ absExpired s nowMs = true ∧
     st'.sessions = st.sessions.set idx ({ s with status := "已結束" }) ∧
     st'.courses = st.courses ∧ st'.students = st.students ∧
     (∀ r ∈ st'.records, r ∈ st.records ∨ r.sessionId = s.sessionId) ∧
     (∀ r ∈ st.records, r ∈ st'.records)) := by
  unfold processSession at h
  cases hstat : (s.status != "進行中") with
  | true =>
    rw [hstat, if_pos rfl] at h
    injection h with h'
    exact Or.inl ⟨h'.symm, Or.inl (bne_iff_ne.mp hstat)⟩
  | false =>
    rw [hstat] at h
    simp only [Bool.false_eq_true, if_false] at h
    cases hexp : absExpired s nowMs with
    | false =>
      rw [hexp] at h
      simp only [Bool.not_false, if_pos rfl] at h
      injection h with h'
      exact Or.inl ⟨h'.symm, Or.inr rfl⟩
    | true =>
      rw [hexp] at h
      simp only [Bool.not_true, Bool.false_eq_true, if_false] at h
      right
      have hstat' : s.status = "進行中" := bne_eq_false_iff_eq.mp hstat
      refine ⟨hstat', rfl, ?_⟩
      cases hc : ({ st with sessions :=
          (st.sessions.set idx ({ s with status := "處理中" })) } : Store).courses.find?
          (fun c => c.courseId == s.courseId) with
      | none =>
        rw [hc] at h
        dsimp only at h
        injection h with h'
        rw [← h']
        refine ⟨?_, rfl, rfl, fun r hr => Or.inl hr, fun r hr => hr⟩
        dsimp only
        rw [List.set_set]
      | some course =>
        rw [hc] at h
        dsimp only at h
        obtain ⟨out, hout, oses, ocou, ostu, otag, osub⟩ :=
          absStudentsFold_shape fm s.sessionId course s.date
            ({ st with sessions :=
              (st.sessions.set idx ({ s with status := "處理中" })) } : Store).records
            nowStr
            (({ st with sessions :=
              (st.sessions.set idx ({ s with status := "處理中" })) } : Store).students.filter
              (fun x => (splitClasses x.classes).contains course.classCode))
            ({ st with sessions :=
              (st.sessions.set idx ({ s with status := "處理中" })) } : Store)
        rcases hout with hok | herr
        · rw [hok] at h
          dsimp only at h
          injection h with h'
          rw [← h']
          refine ⟨?_, ocou, ostu, otag, osub⟩
          dsimp only
          rw [oses]
          dsimp only
          rw [List.set_set]
        · rw [herr] at h
          simp at h

/-- A thrown `processSession` happened mid-synthesis: the session was
進行中 and expired, and it is left at 處理中 — set before any absence
was synthesized — with courses and students untouched and only
session-tagged records appended. -/
theorem processSession_error (fm : FaultModel) (st : Store) (idx : Nat)
    (s : SessionRow) (nowMs : Int) (nowStr : String) (st_e : Store)
    (h : processSession fm st idx s nowMs nowStr = .error st_e) :
    s.status = "進行中" ∧ absExpired s nowMs = true ∧
    st_e.sessions = st.sessions.set idx ({ s with status := "處理中" }) ∧
    st_e.courses = st.courses ∧ st_e.students = st.students ∧
    (∀ r ∈ st_e.records, r ∈ st.records ∨ r.sessionId = s.sessionId) ∧
    (∀ r ∈ st.records, r ∈ st_e.records) := by
  unfold processSession at h
  cases hstat : (s.status != "進行中") with
  | true => rw [hstat, if_pos rfl] at h; simp at h
  | false =>
    rw [hstat] at h
    simp only [Bool.false_eq_true, if_false] at h
    cases hexp : absExpired s nowMs with
    | false =>
      rw [hexp] at h
      simp only [Bool.not_false, if_pos rfl] at h
      simp at h
    | true =>
      rw [hexp] at h
      simp only [Bool.not_true, Bool.false_eq_true, if_false] at h
      have hstat' : s.status = "進行中" := bne_eq_false_iff_eq.mp hstat
      refine ⟨hstat', rfl, ?_⟩
      cases hc : ({ st with sessions :=
          (st.sessions.set idx ({ s with status := "處理中" })) } : Store).courses.find?
          (fun c => c.courseId == s.courseId) with
      | none =>
        rw [hc] at h
        simp at h
      | some course =>
        rw [hc] at h
        dsimp only at h
        obtain ⟨out, hout, oses, ocou, ostu, otag, osub⟩ :=
          absStudentsFold_shape fm s.sessionId course s.date
            ({ st with sessions :=
              (st.sessions.set idx ({ s with status := "處理中" })) } : Store).records
            nowStr
            (({ st with sessions :=
              (st.sessions.set idx ({ s with status := "處理中" })) } : Store).students.filter
              (fun x => (splitClasses x.classes).contains course.classCode))
            ({ st with sessions :=
              (st.sessions.set idx ({ s with status := "處理中" })) } : Store)
        rcases hout with hok | herr
        · rw [hok] at h
          simp at h
        · rw [herr] at h
          dsimp only at h
          injection h with h'
          rw [← h']
          exact ⟨oses, ocou, ostu, otag, osub⟩

/-- With no append faults, a 進行中 expired session is fully processed:
it ends 已結束 and, when its course resolves, every enrolled student
has a record for it in the result. -/
theorem processSession_covers (fm : FaultModel) (st : Store) (idx : Nat)
    (s : SessionRow) (nowMs : Int) (nowStr : String)
    (hnf : ∀ a b, fm.addRowFails a b = false)
    (hstat : s.status = "進行中") (hexp : absExpired s nowMs = true) :
    ∃ st', processSession fm st idx s nowMs nowStr = .ok st' ∧
      st'.sessions = st.sessions.set idx ({ s with status := "已結束" }) ∧
      (∀ c, st.courses.find? (fun cc => cc.courseId == s.courseId) = some c →
        ∀ stu ∈ st.students.filter
            (fun x => (splitClasses x.classes).contains c.classCode),
          ∃ r ∈ st'.records, r.sessionId = s.sessionId ∧
            r.studentId = stu.studentId) := by
  unfold processSession
  have hb : (s.status != "進行中") = false := by
    simp [hstat]
  rw [hb]
  simp only [Bool.false_eq_true, if_false, hexp, Bool.not_true]
  cases hc : st.courses.find? (fun c => c.courseId == s.courseId) with
  | none =>
    dsimp only
    refine ⟨_, rfl, ?_, ?_⟩
    · dsimp only
      rw [List.set_set]
    · intro c hcc
      cases hcc
  | some course =>
    dsimp only
    obtain ⟨out, hfold, hcov⟩ :=
      absStudentsFold_covers fm s.sessionId course s.date st.records nowStr
        (fun pid => hnf s.sessionId pid)
        (st.students.filter
          (fun x => (splitClasses x.classes).contains course.classCode))
        ({ st with sessions :=
          (st.sessions.set idx ({ s with status := "處理中" })) } : Store)
        (fun r hr => hr)
    obtain ⟨out', hout', oses, ocou, ostu, otag, osub⟩ :=
      absStudentsFold_shape fm s.sessionId course s.date st.records nowStr
        (st.students.filter
          (fun x => (splitClasses x.classes).contains course.classCode))
        ({ st with sessions :=
          (st.sessions.set idx ({ s with status := "處理中" })) } : Store)
    have hout'eq : out' = out := by
      rcases hout' with hok | herr
      · rw [hfold] at hok
        injection hok with h''
        exact h''.symm
      · rw [hfold] at herr
        simp at herr
    subst hout'eq
    rw [hfold]
    dsimp only
    refine ⟨_, rfl, ?_, ?_⟩
    · dsimp only
      rw [oses]
      dsimp only
      rw [List.set_set]
    · intro c hcc
      injection hcc with hceq
      subst hceq
      intro stu hstu
      obtain ⟨r, hrmem, hr1, hr2⟩ := hcov stu hstu
      exact ⟨r, hrmem, hr1, hr2⟩


theorem nodup_head_ne {q : Nat × SessionRow} {tl : List (Nat × SessionRow)}
    (hnd : ((q :: tl).map Prod.fst).Nodup) {p : Nat × SessionRow} (hp : p ∈ tl) :
    q.1 ≠ p.1 := by
  rw [List.map_cons] at hnd
  intro hcontra
  exact (List.nodup_cons.mp hnd).1 (hcontra ▸ List.mem_map_of_mem Prod.fst hp)

theorem nodup_tail_of_cons {q : Nat × SessionRow} {tl : List (Nat × SessionRow)}
    (hnd : ((q :: tl).map Prod.fst).Nodup) : (tl.map Prod.fst).Nodup := by
  rw [List.map_cons] at hnd
  exact (List.nodup_cons.mp hnd).2

theorem foldExcept_id (f : Store → α → Except Store Store) :
    ∀ (l : List α) (st : Store), (∀ p ∈ l, ∀ s, f s p = .ok s) →
      foldExcept f st l = .ok st := by
  intro l
  induction l with
  | nil => intro st _; rfl
  | cons q tl ih =>
    intro st h
    unfold foldExcept
    rw [h q (by simp) st]
    exact ih st (fun p hp s => h p (List.mem_cons_of_mem q hp) s)

/-- The absence sweep's session fold, any fault model: courses and
students are untouched, records only grow and every new record belongs
to a 進行中-and-expired session of the snapshot, indices outside the
snapshot are untouched, and (for distinct indices) the position of a
skipped session is untouched. -/
theorem absSweepFold_shape (fm : FaultModel) (nowMs : Int) (nowStr : String) :
    ∀ (L : List (Nat × SessionRow)) (st : Store),
      ∃ out,
        (foldExcept (fun st p => processSession fm st p.1 p.2 nowMs nowStr) st L =
            .ok out ∨
         foldExcept (fun st p => processSession fm st p.1 p.2 nowMs nowStr) st L =
            .error out) ∧
        out.courses = st.courses ∧ out.students = st.students ∧
        (∀ r ∈ out.records, r ∈ st.records ∨ ∃ p ∈ L,
          p.2.status = "進行中" ∧ absExpired p.2 nowMs = true ∧
          r.sessionId = p.2.sessionId) ∧
        (∀ r ∈ st.records, r ∈ out.records) ∧
        (∀ i, (∀ p ∈ L, p.1 ≠ i) → out.sessions.get? i = st.sessions.get? i) ∧
        ((L.map Prod.fst).Nodup →
          ∀ p ∈ L, (p.2.status ≠ "進行中" ∨ absExpired p.2 nowMs = false) →
            out.sessions.get? p.1 = st.sessions.get? p.1) := by
  intro L
  induction L with
  | nil =>
    intro st
    exact ⟨st, Or.inl rfl, rfl, rfl, fun r hr => Or.inl hr, fun r hr => hr,
      fun i _ => rfl, fun _ p hp => absurd hp (List.not_mem_nil p)⟩
  | cons q tl ih =>
    intro st
    cases hstep : processSession fm st q.1 q.2 nowMs nowStr with
    | error st_e =>
      obtain ⟨hq1, hq2, hses, hcou, hstu, htag, hsub⟩ :=
        processSession_error fm st q.1 q.2 nowMs nowStr st_e hstep
      refine ⟨st_e, Or.inr ?_, hcou, hstu, ?_, hsub, ?_, ?_⟩
      · show foldExcept (fun st p => processSession fm st p.1 p.2 nowMs nowStr) st (q :: tl) = _
        conv_lhs => unfold foldExcept; rw [hstep]
      · intro r hr
        rcases htag r hr with h' | h'
        · exact Or.inl h'
        · exact Or.inr ⟨q, List.mem_cons_self q tl, hq1, hq2, h'⟩
      · intro i hne
        rw [hses]
        exact List.get?_set_ne _ _ (hne q (List.mem_cons_self q tl))
      · intro hnd p hp hskip
        rcases List.mem_cons.mp hp with h' | h'
        · subst h'
          rcases hskip with h'' | h''
          · exact absurd hq1 h''
          · rw [hq2] at h''
            cases h''
        · have hne : q.1 ≠ p.1 := nodup_head_ne hnd h'
          rw [hses]
          exact List.get?_set_ne _ _ hne
    | ok st1 =>
      obtain ⟨out, hout, ocou, ostu, otag, osub, ountouched, oskip⟩ := ih st1
      have hfoldeq : foldExcept
          (fun st p => processSession fm st p.1 p.2 nowMs nowStr) st (q :: tl) =
          foldExcept (fun st p => processSession fm st p.1 p.2 nowMs nowStr)
            st1 tl := by
        conv_lhs => unfold foldExcept; rw [hstep]
      rcases processSession_ok fm st q.1 q.2 nowMs nowStr st1 hstep with
        ⟨heq, hcond⟩ | ⟨hq1, hq2, hses, hcou, hstu, htag, hsub⟩
      · subst heq
        refine ⟨out, ?_, ocou, ostu, ?_, osub, ?_, ?_⟩
        · rw [hfoldeq]; exact hout
        · intro r hr
          rcases otag r hr with h' | ⟨p, hp, h1, h2, h3⟩
          · exact Or.inl h'
          · exact Or.inr ⟨p, List.mem_cons_of_mem q hp, h1, h2, h3⟩
        · intro i hne
          exact ountouched i (fun p hp => hne p (List.mem_cons_of_mem q hp))
        · intro hnd p hp hskip
          rcases List.mem_cons.mp hp with h' | h'
          · subst h'
            exact ountouched p.1 (fun p' hp' => (nodup_head_ne hnd hp').symm)
          · exact oskip (nodup_tail_of_cons hnd) p h' hskip
      · refine ⟨out, ?_, ocou.trans hcou, ostu.trans hstu, ?_, ?_, ?_, ?_⟩
        · rw [hfoldeq]; exact hout
        · intro r hr
          rcases otag r hr with h' | ⟨p, hp, h1, h2, h3⟩
          · rcases htag r h' with h'' | h''
            · exact Or.inl h''
            · exact Or.inr ⟨q, List.mem_cons_self q tl, hq1, hq2, h''⟩
          · exact Or.inr ⟨p, List.mem_cons_of_mem q hp, h1, h2, h3⟩
        · intro r hr
          exact osub r (hsub r hr)
        · intro i hne
          rw [ountouched i (fun p hp => hne p (List.mem_cons_of_mem q hp)), hses]
          exact List.get?_set_ne _ _ (hne q (List.mem_cons_self q tl))
        · intro hnd p hp hskip
          rcases List.mem_cons.mp hp with h' | h'
          · subst h'
            rcases hskip with h'' | h''
            · exact absurd hq1 h''
            · rw [hq2] at h''
              cases h''
          · have hne : q.1 ≠ p.1 := nodup_head_ne hnd h'
            rw [oskip (nodup_tail_of_cons hnd) p h' hskip, hses]
            exact List.get?_set_ne _ _ hne

/-- The absence sweep's session fold with no append faults: it
completes, closes every 進行中 expired session in place (covering every
enrolled student of its resolved course with a record), and leaves
every other position untouched. -/
theorem absSweepFold_noAddFaults (fm : FaultModel) (nowMs : Int)
    (nowStr : String) (hnf : ∀ a b, fm.addRowFails a b = false) :
    ∀ (L : List (Nat × SessionRow)) (st : Store),
      ((L.map Prod.fst).Nodup) →
      (∀ p ∈ L, st.sessions.get? p.1 = some p.2) →
      ∃ out,
        foldExcept (fun st p => processSession fm st p.1 p.2 nowMs nowStr) st L =
          .ok out ∧
        out.courses = st.courses ∧ out.students = st.students ∧
        (∀ r ∈ st.records, r ∈ out.records) ∧
        out.sessions.length = st.sessions.length ∧
        (∀ i, (∀ p ∈ L, p.1 ≠ i) → out.sessions.get? i = st.sessions.get? i) ∧
        (∀ p ∈ L, p.2.status = "進行中" → absExpired p.2 nowMs = true →
          out.sessions.get? p.1 = some ({ p.2 with status := "已結束" }) ∧
          (∀ c, st.courses.find? (fun cc => cc.courseId == p.2.courseId) =
              some c →
            ∀ stu ∈ st.students.filter
                (fun x => (splitClasses x.classes).contains c.classCode),
              ∃ r ∈ out.records, r.sessionId = p.2.sessionId ∧
                r.studentId = stu.studentId)) ∧
        (∀ p ∈ L, (p.2.status ≠ "進行中" ∨ absExpired p.2 nowMs = false) →
          out.sessions.get? p.1 = some p.2) := by
  intro L
  induction L with
  | nil =>
    intro st _ _
    exact ⟨st, rfl, rfl, rfl, fun r hr => hr, rfl, fun i _ => rfl,
      fun p hp => absurd hp (List.not_mem_nil p),
      fun p hp => absurd hp (List.not_mem_nil p)⟩
  | cons q tl ih =>
    intro st hnd hcorr
    have hndtl := nodup_tail_of_cons hnd
    by_cases hproc : q.2.status = "進行中" ∧ absExpired q.2 nowMs = true
    · obtain ⟨st1, hstep, hses1, hcov1⟩ :=
        processSession_covers fm st q.1 q.2 nowMs nowStr hnf hproc.1 hproc.2
      have hpres := processSession_ok fm st q.1 q.2 nowMs nowStr st1 hstep
      rcases hpres with ⟨_, hcond⟩ | ⟨_, _, _, hcou1, hstu1, _, hsub1⟩
      · rcases hcond with h | h
        · exact absurd hproc.1 h
        · rw [hproc.2] at h
          cases h
      · have hcorr1 : ∀ p ∈ tl, st1.sessions.get? p.1 = some p.2 := by
          intro p hp
          rw [hses1, List.get?_set_ne _ _ (nodup_head_ne hnd hp)]
          exact hcorr p (List.mem_cons_of_mem q hp)
        obtain ⟨out, hfold, ocou, ostu, osub, olen, ountouched, oproc, oskip⟩ :=
          ih st1 hndtl hcorr1
        have hlt : q.1 < st.sessions.length := by
          have := hcorr q (List.mem_cons_self q tl)
          cases hq : st.sessions.get? q.1 with
          | none => rw [hq] at this; cases this
          | some a => exact (List.get?_eq_some.mp hq).1
        have hfoldeq : foldExcept
            (fun st p => processSession fm st p.1 p.2 nowMs nowStr) st (q :: tl) =
            foldExcept (fun st p => processSession fm st p.1 p.2 nowMs nowStr)
              st1 tl := by
          conv_lhs => unfold foldExcept; rw [hstep]
        refine ⟨out, by rw [hfoldeq]; exact hfold, ocou.trans hcou1,
          ostu.trans hstu1, fun r hr => osub r (hsub1 r hr), ?_, ?_, ?_, ?_⟩
        · rw [olen, hses1, List.length_set]
        · intro i hne
          rw [ountouched i (fun p hp => hne p (List.mem_cons_of_mem q hp)),
            hses1, List.get?_set_ne _ _ (hne q (List.mem_cons_self q tl))]
        · intro p hp hst hex
          rcases List.mem_cons.mp hp with h' | h'
          · subst h'
            constructor
            · rw [ountouched p.1 (fun p' hp' => (nodup_head_ne hnd hp').symm),
                hses1]
              exact List.get?_set_eq_of_lt _ hlt
            · intro c hcc stu hstu
              obtain ⟨r, hrmem, hr1, hr2⟩ := hcov1 c hcc stu hstu
              exact ⟨r, osub r hrmem, hr1, hr2⟩
          · obtain ⟨h1, h2⟩ := oproc p h' hst hex
            refine ⟨h1, ?_⟩
            intro c hcc stu hstu
            apply h2 c
            · rw [hcou1]
              exact hcc
            · rw [hstu1]
              exact hstu
        · intro p hp hskip
          rcases List.mem_cons.mp hp with h' | h'
          · subst h'
            rcases hskip with h'' | h''
            · exact absurd hproc.1 h''
            · rw [hproc.2] at h''
              cases h''
          · exact oskip p h' hskip
    · have hskipcond : q.2.status ≠ "進行中" ∨ absExpired q.2 nowMs = false := by
        by_cases h1 : q.2.status = "進行中"
        · right
          cases h2 : absExpired q.2 nowMs with
          | true => exact absurd ⟨h1, h2⟩ hproc
          | false => rfl
        · exact Or.inl h1
      have hstep := processSession_skip fm st q.1 q.2 nowMs nowStr hskipcond
      have hfoldeq : foldExcept
          (fun st p => processSession fm st p.1 p.2 nowMs nowStr) st (q :: tl) =
          foldExcept (fun st p => processSession fm st p.1 p.2 nowMs nowStr)
            st tl := by
        conv_lhs => unfold foldExcept; rw [hstep]
      obtain ⟨out, hfold, ocou, ostu, osub, olen, ountouched, oproc, oskip⟩ :=
        ih st hndtl (fun p hp => hcorr p (List.mem_cons_of_mem q hp))
      refine ⟨out, by rw [hfoldeq]; exact hfold, ocou, ostu, osub, olen, ?_,
        ?_, ?_⟩
      · intro i hne
        exact ountouched i (fun p hp => hne p (List.mem_cons_of_mem q hp))
      · intro p hp hst hex
        rcases List.mem_cons.mp hp with h' | h'
        · subst h'
          exact absurd ⟨hst, hex⟩ hproc
        · exact oproc p h' hst hex
      · intro p hp hskip
        rcases List.mem_cons.mp hp with h' | h'
        · subst h'
          rw [ountouched p.1 (fun p' hp' => (nodup_head_ne hnd hp').symm)]
          exact hcorr p (List.mem_cons_self p tl)
        · exact oskip p h' hskip

/-! ## C8: the absence sweep is idempotent on resolved sessions -/

/-- C8: `checkAbsences` leaves any session that is not 進行中 (or not
yet expired) untouched in its row; every record it creates belongs to a
進行中-and-expired session of the entry snapshot; a thrown
`processSession` left the session at 處理中 (set before any absence was
synthesized) while a completed one left it at 已結束; and with no
faults, re-running the sweep on the already-resolved store is the
identity — zero additional records, zero additional notifications. -/
theorem c8_absence_sweep_idempotent_on_resolved :
    (∀ fm st nowMs nowStr i s, st.sessions.get? i = some s →
        (s.status ≠ "進行中" ∨ absExpired s nowMs = false) →
        (checkAbsences fm st nowMs nowStr).sessions.get? i = some s) ∧
    (∀ fm st nowMs nowStr, ∀ r ∈ (checkAbsences fm st nowMs nowStr).records,
        r ∈ st.records ∨ ∃ s ∈ st.sessions, s.status = "進行中" ∧
          absExpired s nowMs = true ∧ r.sessionId = s.sessionId) ∧
    (∀ fm st idx s nowMs nowStr st_e,
        processSession fm st idx s nowMs nowStr = .error st_e →
        st_e.sessions = st.sessions.set idx ({ s with status := "處理中" })) ∧
    (∀ fm st idx s nowMs nowStr st', s.status = "進行中" →
        absExpired s nowMs = true →
        processSession fm st idx s nowMs nowStr = .ok st' →
        st'.sessions = st.sessions.set idx ({ s with status := "已結束" })) ∧
    (∀ st nowMs nowStr,
        checkAbsences noFaults (checkAbsences noFaults st nowMs nowStr)
          nowMs nowStr = checkAbsences noFaults st nowMs nowStr) := by
  refine ⟨?_, ?_, ?_, ?_, ?_⟩
  · intro fm st nowMs nowStr i s hget hskip
    obtain ⟨out, hout, _, _, _, _, _, hskipped⟩ :=
      absSweepFold_shape fm nowMs nowStr st.sessions.enum st
    have hres : checkAbsences fm st nowMs nowStr = out := by
      unfold checkAbsences
      rcases hout with hok | herr
      · rw [hok]
      · rw [herr]
    rw [hres]
    have hmem : (i, s) ∈ st.sessions.enum := List.mem_enum_iff_get?.mpr hget
    have h := hskipped (List.nodup_enum_map_fst _) (i, s) hmem hskip
    exact h.trans hget
  · intro fm st nowMs nowStr r hr
    obtain ⟨out, hout, _, _, htag, _, _, _⟩ :=
      absSweepFold_shape fm nowMs nowStr st.sessions.enum st
    have hres : checkAbsences fm st nowMs nowStr = out := by
      unfold checkAbsences
      rcases hout with hok | herr
      · rw [hok]
      · rw [herr]
    rw [hres] at hr
    rcases htag r hr with h | ⟨p, hp, h1, h2, h3⟩
    · exact Or.inl h
    · exact Or.inr ⟨p.2, List.get?_mem (List.mem_enum_iff_get?.mp hp), h1, h2, h3⟩
  · intro fm st idx s nowMs nowStr st_e h
    exact (processSession_error fm st idx s nowMs nowStr st_e h).2.2.1
  · intro fm st idx s nowMs nowStr st' hstat hexp h
    rcases processSession_ok fm st idx s nowMs nowStr st' h with
      ⟨_, hc⟩ | ⟨_, _, hses, _, _, _, _⟩
    · rcases hc with hc | hc
      · exact absurd hstat hc
      · rw [hexp] at hc
        cases hc
    · exact hses
  · intro st nowMs nowStr
    obtain ⟨out, hfold, _, _, _, olen, _, oproc, oskip⟩ :=
      absSweepFold_noAddFaults noFaults nowMs nowStr (fun _ _ => rfl)
        st.sessions.enum st (List.nodup_enum_map_fst _)
        (fun p hp => List.mem_enum_iff_get?.mp hp)
    have hres : checkAbsences noFaults st nowMs nowStr = out := by
      unfold checkAbsences
      rw [hfold]
    rw [hres]
    have hall : ∀ p ∈ out.sessions.enum,
        p.2.status ≠ "進行中" ∨ absExpired p.2 nowMs = false := by
      intro p hp
      have hgetout : out.sessions.get? p.1 = some p.2 :=
        List.mem_enum_iff_get?.mp hp
      have hlt : p.1 < st.sessions.length := by
        rw [← olen]
        exact (List.get?_eq_some.mp hgetout).1
      have hgetst : st.sessions.get? p.1 =
          some (st.sessions.get ⟨p.1, hlt⟩) := List.get?_eq_get hlt
      have hmem0 : (p.1, st.sessions.get ⟨p.1, hlt⟩) ∈ st.sessions.enum :=
        List.mem_enum_iff_get?.mpr hgetst
      by_cases hproc : (st.sessions.get ⟨p.1, hlt⟩).status = "進行中" ∧
          absExpired (st.sessions.get ⟨p.1, hlt⟩) nowMs = true
      · obtain ⟨hclosed, _⟩ := oproc _ hmem0 hproc.1 hproc.2
        rw [hgetout] at hclosed
        injection hclosed with heq
        left
        rw [heq]
        exact (by decide : ("已結束" : String) ≠ "進行中")
      · have hskipc : (st.sessions.get ⟨p.1, hlt⟩).status ≠ "進行中" ∨
            absExpired (st.sessions.get ⟨p.1, hlt⟩) nowMs = false := by
          by_cases h1 : (st.sessions.get ⟨p.1, hlt⟩).status = "進行中"
          · right
            cases h2 : absExpired (st.sessions.get ⟨p.1, hlt⟩) nowMs with
            | true => exact absurd ⟨h1, h2⟩ hproc
            | false => rfl
          · exact Or.inl h1
        have h := oskip _ hmem0 hskipc
        rw [hgetout] at h
        injection h with heq
        rw [heq]
        exact hskipc
    unfold checkAbsences
    rw [foldExcept_id _ out.sessions.enum out
      (fun p hp s => processSession_skip noFaults s p.1 p.2 nowMs nowStr
        (hall p hp))]

/-- Today's session of `wCourse` already resolved to 已結束. -/
def c8Closed : SessionRow := { wSession with status := "已結束" }

/-- Store whose only session is already closed. -/
def c8St : Store := { wSt with sessions := [c8Closed] }

/-- Concrete C8 run: a sweep at 09:05 leaves the already-closed session
row untouched, and re-sweeping a just-resolved store changes nothing. -/
theorem c8_absence_sweep_idempotent_on_resolved_witness :
    (checkAbsences noFaults c8St ((9 * 60 + 5) * 60000)
        "2026-10-12 09:05").sessions.get? 0 = some c8Closed ∧
    checkAbsences noFaults
        (checkAbsences noFaults wSt ((9 * 60 + 5) * 60000) "2026-10-12 09:05")
        ((9 * 60 + 5) * 60000) "2026-10-12 09:05" =
      checkAbsences noFaults wSt ((9 * 60 + 5) * 60000) "2026-10-12 09:05" :=
  ⟨c8_absence_sweep_idempotent_on_resolved.1 noFaults c8St
      ((9 * 60 + 5) * 60000) "2026-10-12 09:05" 0 c8Closed (by rfl)
      (Or.inl (by decide)),
   c8_absence_sweep_idempotent_on_resolved.2.2.2.2 wSt
      ((9 * 60 + 5) * 60000) "2026-10-12 09:05"⟩

/-! ## C9: fault isolation inside the absence sweep -/

/-- A fault model in which appending the absence row for
(S100, 123456) throws, and pushes never fail. -/
def c9fm : FaultModel :=
  { addRowFails := fun sid pid => sid == "S100" && pid == "123456",
    pushFails := fun _ => false }

/-- A fault model in which every notification push throws but every
row append succeeds. -/
def c9push : FaultModel :=
  { addRowFails := fun _ _ => false, pushFails := fun _ => true }

/-- Base store with two enrolled students and today's open session. -/
def c9St : Store := { wSt with students := [wStu, wStu2] }

/-- C9 counterexample: when synthesizing the first student's absence
record throws, the whole sweep aborts — the session is stuck at 處理中
(never reaches 已結束), the second enrolled student is never processed,
and no record or notification at all is produced. -/
theorem c9_counterexample_record_throw_aborts_sweep :
    (checkAbsences c9fm c9St ((9 * 60 + 5) * 60000)
        "2026-10-12 09:05").sessions.map SessionRow.status = ["處理中"] ∧
    (checkAbsences c9fm c9St ((9 * 60 + 5) * 60000)
        "2026-10-12 09:05").records = [] ∧
    (checkAbsences c9fm c9St ((9 * 60 + 5) * 60000)
        "2026-10-12 09:05").outbox = [] := by
  decide

/-- C9 (amended): only the notification push is per-person
fault-isolated.  When no row append throws — pushes may all throw —
every 進行中 expired session is still closed and every enrolled
student of its resolved course still gets a record. -/
theorem c9_push_failures_isolated :
    ∀ fm st nowMs nowStr, (∀ a b, fm.addRowFails a b = false) →
      ∀ i s, st.sessions.get? i = some s → s.status = "進行中" →
        absExpired s nowMs = true →
        (checkAbsences fm st nowMs nowStr).sessions.get? i =
          some ({ s with status := "已結束" }) ∧
        (∀ c, st.courses.find? (fun cc => cc.courseId == s.courseId) =
            some c →
          ∀ stu ∈ st.students.filter
              (fun x => (splitClasses x.classes).contains c.classCode),
            ∃ r ∈ (checkAbsences fm st nowMs nowStr).records,
              r.sessionId = s.sessionId ∧ r.studentId = stu.studentId) := by
  intro fm st nowMs nowStr hnf i s hget hstat hexp
  obtain ⟨out, hfold, _, _, _, _, _, oproc, _⟩ :=
    absSweepFold_noAddFaults fm nowMs nowStr hnf st.sessions.enum st
      (List.nodup_enum_map_fst _) (fun p hp => List.mem_enum_iff_get?.mp hp)
  have hres : checkAbsences fm st nowMs nowStr = out := by
    unfold checkAbsences
    rw [hfold]
  rw [hres]
  exact oproc (i, s) (List.mem_enum_iff_get?.mpr hget) hstat hexp

/-- Concrete C9 run of the amended theorem: with every push throwing,
the 09:05 sweep still closes the expired session. -/
theorem c9_push_failures_isolated_witness :
    (checkAbsences c9push c9St ((9 * 60 + 5) * 60000)
        "2026-10-12 09:05").sessions.get? 0 =
      some ({ wSession with status := "已結束" }) :=
  (c9_push_failures_isolated c9push c9St ((9 * 60 + 5) * 60000)
    "2026-10-12 09:05" (fun _ _ => rfl) 0 wSession (by rfl) (by rfl)
    (by decide)).1

end Attendance
